import Mathlib

/-! AMD GPU monitor widget (`web/monitor.js`).

A shallow embedding of the widget's row builder (`createGpuRow`), row updater
(`updateGpuRowUI`), reconciler (`updateMonitorUI`), the drag handler and the
saved-position restore of `createMonitorElement`, followed by the properties
proved about them.

Conventions of the embedding.

* A telemetry number is a `Nat`: a non-negative integer small enough for
  JavaScript to print it in plain decimal (below `10^21`).  Fractional and
  negative telemetry is outside the embedding.
* An optional field is an `Option`; `none` stands for a property that is
  missing (or `null` / `undefined`).
* DOM row subtrees are heap objects.  The heap is the list `Monitor.rows`; a
  row handle is the position of its subtree in that list, so a freshly built
  row is distinct from every older one.
-/

namespace AMDGPUMonitor

/-! ## JavaScript operators used by the source -/

/-- The expression `a || b` where `a` is a string-valued optional field: a missing
field and the empty string are both falsy. -/
def strOr (a : Option String) (b : String) : String :=
  match a with
  | some s => if s = "" then b else s
  | none => b

/-- The expression `a || d` where `a` is a number-valued optional field: a missing
field and `0` are both falsy. -/
def numOr (a : Option Nat) (d : Nat) : Nat :=
  match a with
  | some n => if n = 0 then d else n
  | none => d

/-- The integer `n` that `Number.prototype.toFixed(1)` selects for `x = v / 1024`:
the `n` for which `n / 10 - x` is closest to zero, the larger one on a tie.
`v / 1024` is exact in binary floating point, so the choice is exact. -/
def tenthsOf1024 (v : Nat) : Nat := (10 * v + 512) / 1024

/-- The string `(v / 1024).toFixed(1)`: the digits of `n` with a decimal point before
the last one. -/
def toFixed1Div1024 (v : Nat) : String :=
  toString (tenthsOf1024 v / 10) ++ "." ++ toString (tenthsOf1024 v % 10)

/-! ## Data model -/

/-- One per-GPU telemetry record of a snapshot. -/
structure GpuRecord where
  card : Option String
  index : Option Nat
  label : Option String
  gpu_utilization : Option Nat
  vram_used : Option Nat
  vram_total : Option Nat
  vram_used_percent : Option Nat
  gpu_temperature : Option Nat
deriving DecidableEq, Repr

/-- The mutable display state of one row subtree: the text and style properties that
`createGpuRow` initialises and `updateGpuRowUI` assigns. -/
structure RowUI where
  /-- Text of `nameSpan`. -/
  nameSpanText : String
  /-- Text of `tempSpan`. -/
  tempSpanText : String
  /-- Style colour of `tempSpan`. -/
  tempSpanColor : String
  /-- Style width of `gpuBar`. -/
  gpuBarWidth : String
  /-- Style background colour of `gpuBar`. -/
  gpuBarColor : String
  /-- Text of `gpuText`. -/
  gpuText : String
  /-- Style width of `vramBar`. -/
  vramBarWidth : String
  /-- Style background colour of `vramBar`. -/
  vramBarColor : String
  /-- Text of `vramText`. -/
  vramText : String
  /-- Style width of `tempBar`. -/
  tempBarWidth : String
  /-- Style background colour of `tempBar`. -/
  tempBarColor : String
deriving DecidableEq, Repr

/-- Red, the colour of the high band. -/
def colorHigh : String := "#ff4d4d"

/-- Orange (amber), the colour of the medium band. -/
def colorMedium : String := "#ffad33"

/-- Blue, the default bar colour (low band). -/
def colorLow : String := "#47a0ff"

/-- Grey, the default colour of the temperature text. -/
def colorTempText : String := "#ccc"

/-! ## Row builder and row updater -/

/-- The function `createGpuRow(label)`: a detached row in its zero state. -/
def createGpuRow (label : String) : RowUI where
  nameSpanText := if label = "" then "GPU" else label
  tempSpanText := "0°C"
  tempSpanColor := colorTempText
  gpuBarWidth := "0%"
  gpuBarColor := colorLow
  gpuText := "0%"
  vramBarWidth := "0%"
  vramBarColor := colorLow
  vramText := "0MB / 0MB (0%)"
  tempBarWidth := "0%"
  tempBarColor := colorLow

/-- The label `gpu.label || gpu.card || "GPU" + (gpu.index ?? "")`. -/
def rowLabel (gpu : GpuRecord) : String :=
  strOr gpu.label (strOr gpu.card ("GPU" ++ (match gpu.index with
    | some i => toString i
    | none => "")))

/-- The function `updateGpuRowUI(rowObj, gpu)` for a row handle and a record that are
both objects (the early return on a falsy argument is not reachable for them). -/
def updateGpuRowUI (rowObj : RowUI) (gpu : GpuRecord) : RowUI :=
  let utilization := numOr gpu.gpu_utilization 0
  let vramPercent := numOr gpu.vram_used_percent 0
  let vramUsed := numOr gpu.vram_used 0
  let vramTotal := numOr gpu.vram_total 1
  let vramUsedText := if vramTotal ≥ 1024 then toFixed1Div1024 vramUsed else toString vramUsed
  let vramTotalText := if vramTotal ≥ 1024 then toFixed1Div1024 vramTotal else toString vramTotal
  let unit := if vramTotal ≥ 1024 then "GB" else "MB"
  let temp := numOr gpu.gpu_temperature 0
  let tempPercent := min temp 100
  { rowObj with
    nameSpanText := rowLabel gpu
    gpuBarWidth := toString utilization ++ "%"
    gpuText := toString utilization ++ "%"
    gpuBarColor :=
      if utilization > 80 then colorHigh
      else if utilization > 50 then colorMedium
      else colorLow
    vramBarWidth := toString vramPercent ++ "%"
    vramText := vramUsedText ++ unit ++ " / " ++ vramTotalText ++ unit
      ++ " (" ++ toString vramPercent ++ "%)"
    vramBarColor :=
      if vramPercent > 85 then colorHigh
      else if vramPercent > 70 then colorMedium
      else colorLow
    tempBarWidth := toString tempPercent ++ "%"
    tempSpanText := toString temp ++ "°C"
    tempBarColor :=
      if temp > 80 then colorHigh
      else if temp > 60 then colorMedium
      else colorLow
    tempSpanColor :=
      if temp > 80 then colorHigh
      else if temp > 60 then colorMedium
      else colorTempText }

/-! ## Snapshots and widget state -/

/-- The `driver` object of a snapshot. -/
structure DriverInfo where
  driver_version : Option String
  smi_version : Option String
deriving DecidableEq, Repr

/-- The `gpus` property of a snapshot, as `Array.isArray` sees it. -/
inductive GpusField where
  /-- The property is missing (or `undefined` / `null`). -/
  | missing
  /-- The property holds a value that is not an array. -/
  | notArray
  /-- The property holds an array, each element of which is a record object. -/
  | array (gpus : List GpuRecord)
deriving DecidableEq, Repr

/-- The payload of one telemetry event. -/
structure Snapshot where
  device_type : Option String
  driver : Option DriverInfo
  gpus : GpusField
deriving DecidableEq, Repr

/-- The positioning and visibility properties of `container.style`. -/
structure ContainerStyle where
  top : String
  right : String
  left : String
  display : String
deriving DecidableEq, Repr

/-- The object returned by `createMonitorElement`, with the part of the DOM it owns.
`gpuList` lists the children of the row-list element, `gpuRows` the own properties
of the registry object in creation order, both by row handle; `rows` is the heap of
row subtrees, a handle being a position in it. -/
structure Monitor where
  container : ContainerStyle
  /-- Text of the driver/platform info line. -/
  driverLine : String
  gpuList : List Nat
  gpuRows : List (String × Nat)
  rows : List RowUI
deriving DecidableEq, Repr

/-- How a call of a handler ends. -/
inductive Completion where
  /-- The call returns. -/
  | returned
  /-- The call ends in an uncaught `TypeError`. -/
  | threw
deriving DecidableEq, Repr

/-! ## Reconciler -/

/-- The property names every plain object inherits from `Object.prototype`.  The
registry is created as an object literal, so reading one of these names from it
yields the inherited (truthy) member unless an own property shadows it. -/
def objectPrototypeKeys : List String :=
  ["constructor", "__defineGetter__", "__defineSetter__", "hasOwnProperty",
   "__lookupGetter__", "__lookupSetter__", "isPrototypeOf", "propertyIsEnumerable",
   "toString", "valueOf", "__proto__", "toLocaleString"]

/-- The value of the property read `gpuRows[key]`. -/
inductive RowLookup where
  /-- An own property: a registered row handle. -/
  | own (handle : Nat)
  /-- A member inherited from `Object.prototype`: truthy, but not a row handle. -/
  | inherited
  /-- No such property. -/
  | undefined
deriving DecidableEq, Repr

/-- The property read `gpuRows[key]`. -/
def getRow (gpuRows : List (String × Nat)) (key : String) : RowLookup :=
  match gpuRows.lookup key with
  | some handle => .own handle
  | none => if key ∈ objectPrototypeKeys then .inherited else .undefined

/-- The identity key `gpu.card || "gpu" + (gpu.index ?? idx)`. -/
def gpuKey (gpu : GpuRecord) (idx : Nat) : String :=
  strOr gpu.card ("gpu" ++ toString (match gpu.index with
    | some i => i
    | none => idx))

/-- The call `updateGpuRowUI(rowObj, gpu)` on the row subtree a handle refers to. -/
def updateRowAt (rows : List RowUI) (handle : Nat) (gpu : GpuRecord) : List RowUI :=
  match rows[handle]? with
  | some rowObj => rows.set handle (updateGpuRowUI rowObj gpu)
  | none => rows

/-- The loop `data.gpus.forEach((gpu, idx) => ...)` of `updateMonitorUI`, from position
`idx` on.  When `gpuRows[key]` is an inherited member, no row is built and
`updateGpuRowUI` receives the member: its first assignment, to `textContent` of the
missing `nameSpan`, throws, which ends the whole call. -/
def forEachGpu : List GpuRecord → Nat → Monitor → Monitor × Completion
  | [], _, monitor => (monitor, .returned)
  | gpu :: rest, idx, monitor =>
    let key := gpuKey gpu idx
    match getRow monitor.gpuRows key with
    | .own handle =>
      forEachGpu rest (idx + 1) { monitor with rows := updateRowAt monitor.rows handle gpu }
    | .inherited => (monitor, .threw)
    | .undefined =>
      let label := strOr gpu.label key
      let handle := monitor.rows.length
      forEachGpu rest (idx + 1)
        { monitor with
          rows := updateRowAt (monitor.rows ++ [createGpuRow label]) handle gpu
          gpuList := monitor.gpuList ++ [handle]
          gpuRows := monitor.gpuRows ++ [(key, handle)] }

/-- The members of `seenKeys` after the loop over the records from position `idx`. -/
def seenKeysFrom : List GpuRecord → Nat → List String
  | [], _ => []
  | gpu :: rest, idx => gpuKey gpu idx :: seenKeysFrom rest (idx + 1)

/-- The number a property name stands for when it is an array index: a canonical
decimal numeral below `2^32 - 1`. -/
def arrayIndex? (key : String) : Option Nat :=
  let cs := key.data
  if cs ≠ [] ∧ cs.all Char.isDigit = true ∧ (cs.head? ≠ some '0' ∨ cs.length = 1) then
    let n := cs.foldl (fun acc c => 10 * acc + (c.toNat - 48)) 0
    if n < 4294967295 then some n else none
  else none

/-- The array `Object.keys(gpuRows)`: array-index names in ascending numeric order, then
the other names in creation order. -/
def objectKeys (gpuRows : List (String × Nat)) : List String :=
  let keys := gpuRows.map Prod.fst
  (keys.filter (fun k => (arrayIndex? k).isSome)).insertionSort
      (fun a b => (arrayIndex? a).getD 0 ≤ (arrayIndex? b).getD 0)
    ++ keys.filter (fun k => (arrayIndex? k).isNone)

/-- The loop `Object.keys(gpuRows).forEach((key) => ...)` that removes the rows of
keys not seen, over the given array of keys. -/
def removeStale (seenKeys : List String) : List String → Monitor → Monitor
  | [], monitor => monitor
  | key :: rest, monitor =>
    if key ∈ seenKeys then removeStale seenKeys rest monitor
    else
      removeStale seenKeys rest
        { monitor with
          gpuList :=
            match getRow monitor.gpuRows key with
            | .own handle =>
              if handle ∈ monitor.gpuList then monitor.gpuList.erase handle
              else monitor.gpuList
            | _ => monitor.gpuList
          gpuRows := monitor.gpuRows.filter (fun p => p.1 != key) }

/-- The parts pushed for a truthy string field. -/
def truthyPart (field : Option String) : List String :=
  match field with
  | some s => if s = "" then [] else [s]
  | none => []

/-- The text assigned to the driver/platform line.  `toUpperCase` stands for
`String.prototype.toUpperCase`. -/
def driverLineText (toUpperCase : String → String) (data : Snapshot) : String :=
  " · ".intercalate
    ((truthyPart data.device_type).map toUpperCase
      ++ (match data.driver with
          | some driver => truthyPart driver.driver_version ++ truthyPart driver.smi_version
          | none => []))

/-- The function `updateMonitorUI(monitor, data)`; `data = none` is a falsy payload.
The result is the widget state when the call ends, and how it ends.  The monitor is an
object as `createMonitorElement` returns it, so `monitor.driverLine` is truthy and
`monitor.gpuRows || {}` is `monitor.gpuRows`; the final `monitor.gpuRows = gpuRows`
then stores the object it already holds. -/
def updateMonitorUI (toUpperCase : String → String) (monitor : Monitor)
    (data : Option Snapshot) : Monitor × Completion :=
  match data with
  | none => (monitor, .returned)
  | some snapshot =>
    match snapshot.gpus with
    | .missing => (monitor, .returned)
    | .notArray => (monitor, .returned)
    | .array gpus =>
      if gpus.length = 0 then (monitor, .returned)
      else
        match forEachGpu gpus 0
            { monitor with driverLine := driverLineText toUpperCase snapshot } with
        | (looped, .threw) => (looped, .threw)
        | (looped, .returned) =>
          (removeStale (seenKeysFrom gpus 0) (objectKeys looped.gpuRows) looped, .returned)

/-! ## Widget factory: saved position and dragging -/

/-- A JavaScript value as produced by `JSON.parse`. -/
inductive JsValue where
  | undefined
  | null
  | boolean (b : Bool)
  | number (n : Int)
  | string (s : String)
  | array (items : List JsValue)
  | object (props : List (String × JsValue))

/-- The items of the preference store the widget reads. -/
structure Storage where
  /-- The item `amd-gpu-monitor-position`. -/
  position : Option String
  /-- The item `amd-gpu-monitor-closed`. -/
  closed : Option String
deriving DecidableEq, Repr

/-- The destructuring `const { left, top } = value`: a `TypeError` on `null` and
`undefined`, the two properties (possibly `undefined`) otherwise. -/
def destructureLeftTop : JsValue → Except Unit (JsValue × JsValue)
  | .undefined => .error ()
  | .null => .error ()
  | .object props =>
    .ok ((props.lookup "left").getD .undefined, (props.lookup "top").getD .undefined)
  | _ => .ok (.undefined, .undefined)

/-- The block `if (savedPosition) { try { ... } catch (e) { } }`.  `jsonParse` stands
for `JSON.parse` (an error for a `SyntaxError`), `styleSet old value` for the value a
style offset property holds after `value` is assigned to it. -/
def restoreSavedPosition (jsonParse : String → Except Unit JsValue)
    (styleSet : String → JsValue → String) (savedPosition : Option String)
    (style : ContainerStyle) : ContainerStyle :=
  match savedPosition with
  | none => style
  | some saved =>
    if saved = "" then style
    else
      match jsonParse saved with
      | .error _ => style
      | .ok value =>
        match destructureLeftTop value with
        | .error _ => style
        | .ok (left, top) =>
          { style with
            left := styleSet style.left left
            top := styleSet style.top top
            right := "auto" }

/-- The placement the container is built with, before the store is consulted. -/
def defaultStyle : ContainerStyle where
  top := "40px"
  right := "5px"
  left := ""
  display := ""

/-- The function `createMonitorElement()`, as far as position, visibility and the
returned registry are concerned. -/
def createMonitorElement (jsonParse : String → Except Unit JsValue)
    (styleSet : String → JsValue → String) (storage : Storage) : Monitor :=
  let placed := restoreSavedPosition jsonParse styleSet storage.position defaultStyle
  { container := if storage.closed = some "true" then { placed with display := "none" } else placed
    driverLine := ""
    gpuList := []
    gpuRows := []
    rows := [] }

/-- The drag variables of `createMonitorElement`; the offsets are read only while
`isDragging` holds, after `mousedown` has assigned them. -/
structure DragState where
  isDragging : Bool
  dragOffsetX : Int
  dragOffsetY : Int
deriving DecidableEq, Repr

/-- The pointer data of a mouse event. -/
structure MouseEvent where
  button : Int
  clientX : Int
  clientY : Int
deriving DecidableEq, Repr

/-- The layout numbers the drag handlers read, in pixels. -/
structure Layout where
  innerWidth : Int
  innerHeight : Int
  offsetLeft : Int
  offsetTop : Int
  offsetWidth : Int
  offsetHeight : Int
deriving DecidableEq, Repr

/-- The `mousedown` handler of the title bar. -/
def onMouseDown (e : MouseEvent) (layout : Layout) (drag : DragState) : DragState :=
  if e.button ≠ 0 then drag
  else
    { isDragging := true
      dragOffsetX := e.clientX - layout.offsetLeft
      dragOffsetY := e.clientY - layout.offsetTop }

/-- The number `Math.max(0, Math.min(x, maxX))` of the `mousemove` handler. -/
def dragLeft (e : MouseEvent) (layout : Layout) (drag : DragState) : Int :=
  let x := e.clientX - drag.dragOffsetX
  let maxX := layout.innerWidth - layout.offsetWidth
  max 0 (min x maxX)

/-- The number `Math.max(0, Math.min(y, maxY))` of the `mousemove` handler. -/
def dragTop (e : MouseEvent) (layout : Layout) (drag : DragState) : Int :=
  let y := e.clientY - drag.dragOffsetY
  let maxY := layout.innerHeight - layout.offsetHeight
  max 0 (min y maxY)

/-- The `mousemove` handler of the document. -/
def onMouseMove (e : MouseEvent) (layout : Layout) (drag : DragState)
    (style : ContainerStyle) : ContainerStyle :=
  if !drag.isDragging then style
  else
    { style with
      left := toString (dragLeft e layout drag) ++ "px"
      top := toString (dragTop e layout drag) ++ "px"
      right := "auto" }

/-- The widget states reachable from a freshly created widget by reconcile passes,
whatever the payloads and however the passes end. -/
inductive Reachable (toUpperCase : String → String) : Monitor → Prop where
  | fresh (jsonParse : String → Except Unit JsValue) (styleSet : String → JsValue → String)
      (storage : Storage) : Reachable toUpperCase (createMonitorElement jsonParse styleSet storage)
  | pass (monitor : Monitor) (data : Option Snapshot) :
      Reachable toUpperCase monitor →
      Reachable toUpperCase (updateMonitorUI toUpperCase monitor data).1

/-! ## Notions used to state and prove the properties of the reconciler -/

/-- What a row shows after `updateGpuRowUI` is called with `gpu`; the row's earlier
content plays no part. -/
def shownFor (gpu : GpuRecord) : RowUI :=
  updateGpuRowUI (createGpuRow "") gpu

/-- A sequence of assignments of whole row contents, applied in order. -/
def writeAll (rows : List RowUI) (writes : List (Nat × RowUI)) : List RowUI :=
  writes.foldl (fun rs w => rs.set w.1 w.2) rows

/-- The row assignments the loop makes when it runs over the records against the
registry `gpuRows` without building a row: one per record, up to the first record
whose key is not registered. -/
def writesOf (gpuRows : List (String × Nat)) : List GpuRecord → Nat → List (Nat × RowUI)
  | [], _ => []
  | gpu :: rest, idx =>
    match getRow gpuRows (gpuKey gpu idx) with
    | .own handle => (handle, shownFor gpu) :: writesOf gpuRows rest (idx + 1)
    | _ => []

/-- How the loop ends when it runs over the records against the registry `gpuRows`
without building a row. -/
def loopCompletion (gpuRows : List (String × Nat)) : List GpuRecord → Nat → Completion
  | [], _ => .returned
  | gpu :: rest, idx =>
    match getRow gpuRows (gpuKey gpu idx) with
    | .own _ => loopCompletion gpuRows rest (idx + 1)
    | .inherited => .threw
    | .undefined => .returned

/-- The loop over the records builds no row against the registry `gpuRows`: up to the
first inherited key every key is registered. -/
def Registered (gpuRows : List (String × Nat)) : List GpuRecord → Nat → Prop
  | [], _ => True
  | gpu :: rest, idx =>
    match getRow gpuRows (gpuKey gpu idx) with
    | .own _ => Registered gpuRows rest (idx + 1)
    | .inherited => True
    | .undefined => False

/-- Every registered handle refers to a row subtree that exists. -/
def HandlesValid (monitor : Monitor) : Prop :=
  ∀ p ∈ monitor.gpuRows, p.2 < monitor.rows.length

/-- The shape of a widget state built by the widget itself: valid handles, one entry
per key, one key per row, and the row list holding the registered rows in
registration order. -/
structure Consistent (monitor : Monitor) : Prop where
  valid : HandlesValid monitor
  keys_nodup : (monitor.gpuRows.map Prod.fst).Nodup
  handles_nodup : (monitor.gpuRows.map Prod.snd).Nodup
  list_eq : monitor.gpuList = monitor.gpuRows.map Prod.snd

/-- The keys of `keys` that are not in `known`, each once, in the order of their first
occurrence. -/
def firstSeen (known : List String) : List String → List String
  | [] => []
  | k :: ks => if k ∈ known then firstSeen known ks else k :: firstSeen (known ++ [k]) ks

/-- The identity key as the specification words it: `card` if present, else
`"gpu" + index`, else `"gpu" + position`. -/
def claimedKey (gpu : GpuRecord) (idx : Nat) : String :=
  match gpu.card with
  | some card => card
  | none =>
    match gpu.index with
    | some i => "gpu" ++ toString i
    | none => "gpu" ++ toString idx

/-! ## Properties of the row updater -/

theorem numOr_some_zero (n : Nat) : numOr (some n) 0 = n := by
  simp only [numOr]
  split_ifs with h
  · exact h.symm
  · rfl

theorem numOr_some_pos (n d : Nat) (h : 1 ≤ n) : numOr (some n) d = n := by
  simp only [numOr]
  split_ifs with h0
  · omega
  · rfl

/-- The row updater overwrites every property of the row, so its result does not
depend on what the row showed before. -/
theorem updateGpuRowUI_overwrites (r r2 : RowUI) (gpu : GpuRecord) :
    updateGpuRowUI r gpu = updateGpuRowUI r2 gpu := rfl

/-- The tenth selected by `toFixed(1)` is a nearest tenth of `v / 1024`. -/
theorem tenthsOf1024_nearest (v : Nat) :
    |((tenthsOf1024 v : ℚ)) / 10 - (v : ℚ) / 1024| ≤ 1 / 20 := by
  have h1 : 1024 * tenthsOf1024 v ≤ 10 * v + 512 := Nat.mul_div_le _ _
  have h2 : 10 * v + 512 < 1024 * (tenthsOf1024 v + 1) := by
    unfold tenthsOf1024
    have := Nat.lt_mul_div_succ (10 * v + 512) (by norm_num : 0 < 1024)
    omega
  have h1q : (1024 : ℚ) * tenthsOf1024 v ≤ 10 * v + 512 := by exact_mod_cast h1
  have h2q : (10 : ℚ) * v + 512 < 1024 * (tenthsOf1024 v + 1) := by exact_mod_cast h2
  rw [abs_le]
  constructor <;> linarith

theorem colorLow_ne_colorMedium : colorLow ≠ colorMedium := by decide

theorem colorLow_ne_colorHigh : colorLow ≠ colorHigh := by decide

theorem colorMedium_ne_colorHigh : colorMedium ≠ colorHigh := by decide

/-- C7. For a record whose `gpu_temperature` is the integer `t ≥ 0`, `updateGpuRowUI` sets the
temperature bar width to `min(t, 100)` followed by `%`, the temperature text to `t`
followed by `°C` (uncapped), and the bar colour and the text colour to the same band:
the default colours when `t ≤ 60`, amber when `61 ≤ t ≤ 80`, red when `t > 80`.  For
`t = 120` the width is `100%`, the text `120°C` and both colours red. -/
theorem updateGpuRowUI_temperature (rowObj : RowUI) (gpu : GpuRecord) (t : Nat) :
    (updateGpuRowUI rowObj { gpu with gpu_temperature := some t }).tempBarWidth
        = toString (min t 100) ++ "%" ∧
    (updateGpuRowUI rowObj { gpu with gpu_temperature := some t }).tempSpanText
        = toString t ++ "°C" ∧
    (t ≤ 60 →
      (updateGpuRowUI rowObj { gpu with gpu_temperature := some t }).tempBarColor = colorLow ∧
      (updateGpuRowUI rowObj { gpu with gpu_temperature := some t }).tempSpanColor
        = colorTempText) ∧
    (61 ≤ t ∧ t ≤ 80 →
      (updateGpuRowUI rowObj { gpu with gpu_temperature := some t }).tempBarColor = colorMedium ∧
      (updateGpuRowUI rowObj { gpu with gpu_temperature := some t }).tempSpanColor
        = colorMedium) ∧
    (80 < t →
      (updateGpuRowUI rowObj { gpu with gpu_temperature := some t }).tempBarColor = colorHigh ∧
      (updateGpuRowUI rowObj { gpu with gpu_temperature := some t }).tempSpanColor
        = colorHigh) ∧
    (updateGpuRowUI rowObj { gpu with gpu_temperature := some 120 }).tempBarWidth = "100%" ∧
    (updateGpuRowUI rowObj { gpu with gpu_temperature := some 120 }).tempSpanText = "120°C" ∧
    (updateGpuRowUI rowObj { gpu with gpu_temperature := some 120 }).tempBarColor = colorHigh ∧
    (updateGpuRowUI rowObj { gpu with gpu_temperature := some 120 }).tempSpanColor
      = colorHigh := by
  refine ⟨?_, ?_, ?_, ?_, ?_, ?_, ?_, ?_, ?_⟩
  · simp only [updateGpuRowUI, numOr_some_zero]
  · simp only [updateGpuRowUI, numOr_some_zero]
  · intro h
    simp only [updateGpuRowUI, numOr_some_zero]
    constructor <;> split_ifs <;> first | rfl | (exfalso; omega)
  · intro h
    simp only [updateGpuRowUI, numOr_some_zero]
    constructor <;> split_ifs <;> first | rfl | (exfalso; omega)
  · intro h
    simp only [updateGpuRowUI, numOr_some_zero]
    constructor <;> split_ifs <;> rfl
  · simp only [updateGpuRowUI, numOr_some_zero]
    decide
  · simp only [updateGpuRowUI, numOr_some_zero]
    decide
  · simp only [updateGpuRowUI, numOr_some_zero]
    decide
  · simp only [updateGpuRowUI, numOr_some_zero]
    decide

/-- The string `(v / 1024).toFixed(1)` has exactly one decimal digit and denotes a tenth
nearest to `v / 1024`. -/
theorem toFixed1Div1024_rounds (v : Nat) :
    ∃ a b : Nat, b < 10 ∧ toFixed1Div1024 v = toString a ++ "." ++ toString b ∧
      |((10 * a + b : Nat) : ℚ) / 10 - (v : ℚ) / 1024| ≤ 1 / 20 := by
  refine ⟨tenthsOf1024 v / 10, tenthsOf1024 v % 10, Nat.mod_lt _ (by norm_num), rfl, ?_⟩
  rw [Nat.div_add_mod]
  exact tenthsOf1024_nearest v

/-- C6. For a record with non-negative integer `vram_used`, `vram_used_percent` and integer
`vram_total ≥ 1`, `updateGpuRowUI` sets the VRAM bar width to the percentage followed by
`%`, and the VRAM text to `used unit / total unit (percent%)`: the unit is `GB` exactly
when `vram_total ≥ 1024`, and then used and total are `vram_used / 1024` and
`vram_total / 1024` rounded to exactly one decimal place; otherwise the unit is `MB` and
used and total are the raw integers.  For 2048 of 4096 at 50 percent the text is
`2.0GB / 4.0GB (50%)`. -/
theorem updateGpuRowUI_vram (rowObj : RowUI) (gpu : GpuRecord) (used total pct : Nat)
    (htotal : 1 ≤ total) :
    (updateGpuRowUI rowObj { gpu with
        vram_used := some used, vram_total := some total,
        vram_used_percent := some pct }).vramBarWidth = toString pct ++ "%" ∧
    (1024 ≤ total →
      (updateGpuRowUI rowObj { gpu with
          vram_used := some used, vram_total := some total,
          vram_used_percent := some pct }).vramText
        = toFixed1Div1024 used ++ "GB" ++ " / " ++ toFixed1Div1024 total ++ "GB"
            ++ " (" ++ toString pct ++ "%)") ∧
    (total < 1024 →
      (updateGpuRowUI rowObj { gpu with
          vram_used := some used, vram_total := some total,
          vram_used_percent := some pct }).vramText
        = toString used ++ "MB" ++ " / " ++ toString total ++ "MB"
            ++ " (" ++ toString pct ++ "%)") ∧
    (∀ v ∈ [used, total], ∃ a b : Nat, b < 10 ∧
      toFixed1Div1024 v = toString a ++ "." ++ toString b ∧
      |((10 * a + b : Nat) : ℚ) / 10 - (v : ℚ) / 1024| ≤ 1 / 20) ∧
    (updateGpuRowUI rowObj { gpu with
        vram_used := some 2048, vram_total := some 4096,
        vram_used_percent := some 50 }).vramText = "2.0GB / 4.0GB (50%)" := by
  refine ⟨?_, ?_, ?_, ?_, ?_⟩
  · simp only [updateGpuRowUI, numOr_some_zero]
  · intro h
    simp only [updateGpuRowUI, numOr_some_zero, numOr_some_pos total 1 htotal]
    rw [if_pos h, if_pos h, if_pos h]
  · intro h
    simp only [updateGpuRowUI, numOr_some_zero, numOr_some_pos total 1 htotal]
    rw [if_neg (by omega), if_neg (by omega), if_neg (by omega)]
  · intro v _
    exact toFixed1Div1024_rounds v
  · simp only [updateGpuRowUI, numOr_some_zero, numOr_some_pos 4096 1 (by decide)]
    decide

/-- The VRAM text of a row for 256 MB used of 8192 MB. -/
theorem updateGpuRowUI_vram_witness :
    1 ≤ 8192 ∧
    (updateGpuRowUI (createGpuRow "card0")
      { card := some "card0", index := some 0, label := none, gpu_utilization := some 10,
        vram_used := some 256, vram_total := some 8192, vram_used_percent := some 3,
        gpu_temperature := some 40 }).vramText
      = toFixed1Div1024 256 ++ "GB" ++ " / " ++ toFixed1Div1024 8192 ++ "GB"
          ++ " (" ++ toString 3 ++ "%)" :=
  ⟨by decide,
   (updateGpuRowUI_vram (createGpuRow "card0")
      { card := some "card0", index := some 0, label := none, gpu_utilization := some 10,
        vram_used := none, vram_total := none, vram_used_percent := none,
        gpu_temperature := some 40 } 256 8192 3 (by decide)).2.1 (by decide)⟩

/-- C8. For a record whose `gpu_utilization` is the integer `u ≥ 0`, `updateGpuRowUI` sets the
utilization bar width and the utilization text to `u` followed by `%`, and the bar
colour to the default band exactly when `u ≤ 50`, to amber exactly when `51 ≤ u ≤ 80` and
to red exactly when `u > 80`, so the three bands are exhaustive and mutually exclusive.
For `u = 85` the width is `85%` and the colour red; for `u = 50` the colour is the
default and for `u = 51` amber. -/
theorem updateGpuRowUI_utilization (rowObj : RowUI) (gpu : GpuRecord) (u : Nat) :
    (updateGpuRowUI rowObj { gpu with gpu_utilization := some u }).gpuBarWidth
        = toString u ++ "%" ∧
    (updateGpuRowUI rowObj { gpu with gpu_utilization := some u }).gpuText
        = toString u ++ "%" ∧
    ((updateGpuRowUI rowObj { gpu with gpu_utilization := some u }).gpuBarColor = colorLow
        ↔ u ≤ 50) ∧
    ((updateGpuRowUI rowObj { gpu with gpu_utilization := some u }).gpuBarColor = colorMedium
        ↔ 51 ≤ u ∧ u ≤ 80) ∧
    ((updateGpuRowUI rowObj { gpu with gpu_utilization := some u }).gpuBarColor = colorHigh
        ↔ 80 < u) ∧
    (updateGpuRowUI rowObj { gpu with gpu_utilization := some 85 }).gpuBarWidth = "85%" ∧
    (updateGpuRowUI rowObj { gpu with gpu_utilization := some 85 }).gpuBarColor = colorHigh ∧
    (updateGpuRowUI rowObj { gpu with gpu_utilization := some 50 }).gpuBarColor = colorLow ∧
    (updateGpuRowUI rowObj { gpu with gpu_utilization := some 51 }).gpuBarColor = colorMedium := by
  have hl := colorLow_ne_colorMedium
  have hh := colorLow_ne_colorHigh
  have hm := colorMedium_ne_colorHigh
  refine ⟨?_, ?_, ?_, ?_, ?_, ?_, ?_, ?_, ?_⟩
  · simp only [updateGpuRowUI, numOr_some_zero]
  · simp only [updateGpuRowUI, numOr_some_zero]
  · simp only [updateGpuRowUI, numOr_some_zero]
    split_ifs with h1 h2
    · constructor
      · intro h; exact absurd h.symm hh
      · intro h; omega
    · constructor
      · intro h; exact absurd h.symm hl
      · intro h; omega
    · constructor
      · intro _; omega
      · intro _; rfl
  · simp only [updateGpuRowUI, numOr_some_zero]
    split_ifs with h1 h2
    · constructor
      · intro h; exact absurd h.symm hm
      · intro h; omega
    · constructor
      · intro _; omega
      · intro _; rfl
    · constructor
      · intro h; exact absurd h hl
      · intro h; omega
  · simp only [updateGpuRowUI, numOr_some_zero]
    split_ifs with h1 h2
    · constructor
      · intro _; omega
      · intro _; rfl
    · constructor
      · intro h; exact absurd h hm
      · intro h; omega
    · constructor
      · intro h; exact absurd h hh
      · intro h; omega
  · simp only [updateGpuRowUI, numOr_some_zero]
    decide
  · simp only [updateGpuRowUI, numOr_some_zero]
    decide
  · simp only [updateGpuRowUI, numOr_some_zero]
    decide
  · simp only [updateGpuRowUI, numOr_some_zero]
    decide

/-- C5 as stated fails: for a record without any numeric field the VRAM text is
`0MB / 1MB (0%)`, not `0MB / 0MB (0%)`, so the row is not in the state a freshly built
row starts in. -/
theorem updateGpuRowUI_missing_vramText_not_zero :
    (updateGpuRowUI (createGpuRow "card0")
      { card := some "card0", index := none, label := none, gpu_utilization := none,
        vram_used := none, vram_total := none, vram_used_percent := none,
        gpu_temperature := none }).vramText = "0MB / 1MB (0%)" ∧
    (updateGpuRowUI (createGpuRow "card0")
      { card := some "card0", index := none, label := none, gpu_utilization := none,
        vram_used := none, vram_total := none, vram_used_percent := none,
        gpu_temperature := none }).vramText ≠ "0MB / 0MB (0%)" ∧
    updateGpuRowUI (createGpuRow "card0")
      { card := some "card0", index := none, label := none, gpu_utilization := none,
        vram_used := none, vram_total := none, vram_used_percent := none,
        gpu_temperature := none } ≠ createGpuRow "card0" := by
  decide

/-- C5, amended. For every row handle and every record in which `gpu_utilization`,
`vram_used`, `vram_total`, `vram_used_percent` and `gpu_temperature` are all missing,
`updateGpuRowUI` shows utilization width `0%` and text `0%`, VRAM width `0%`,
temperature width `0%` and text `0°C`, all three bars and the temperature text in
their default colours, and the VRAM text `0MB / 1MB (0%)`: a missing `vram_total`
counts as 1, the other missing numbers as 0.  This is the state a freshly built row
starts in, except for the label and the VRAM text. -/
theorem updateGpuRowUI_missing_numbers (rowObj : RowUI) (card label : Option String)
    (index : Option Nat) :
    updateGpuRowUI rowObj
      { card := card, index := index, label := label, gpu_utilization := none,
        vram_used := none, vram_total := none, vram_used_percent := none,
        gpu_temperature := none }
    = { nameSpanText := rowLabel
          { card := card, index := index, label := label, gpu_utilization := none,
            vram_used := none, vram_total := none, vram_used_percent := none,
            gpu_temperature := none }
        tempSpanText := "0°C"
        tempSpanColor := colorTempText
        gpuBarWidth := "0%"
        gpuBarColor := colorLow
        gpuText := "0%"
        vramBarWidth := "0%"
        vramBarColor := colorLow
        vramText := "0MB / 1MB (0%)"
        tempBarWidth := "0%"
        tempBarColor := colorLow } ∧
    ∀ l : String,
      updateGpuRowUI rowObj
        { card := card, index := index, label := label, gpu_utilization := none,
          vram_used := none, vram_total := none, vram_used_percent := none,
          gpu_temperature := none }
      = { createGpuRow l with
          nameSpanText := rowLabel
            { card := card, index := index, label := label, gpu_utilization := none,
              vram_used := none, vram_total := none, vram_used_percent := none,
              gpu_temperature := none }
          vramText := "0MB / 1MB (0%)" } := by
  have h : updateGpuRowUI rowObj
      { card := card, index := index, label := label, gpu_utilization := none,
        vram_used := none, vram_total := none, vram_used_percent := none,
        gpu_temperature := none }
    = { nameSpanText := rowLabel
          { card := card, index := index, label := label, gpu_utilization := none,
            vram_used := none, vram_total := none, vram_used_percent := none,
            gpu_temperature := none }
        tempSpanText := "0°C"
        tempSpanColor := colorTempText
        gpuBarWidth := "0%"
        gpuBarColor := colorLow
        gpuText := "0%"
        vramBarWidth := "0%"
        vramBarColor := colorLow
        vramText := "0MB / 1MB (0%)"
        tempBarWidth := "0%"
        tempBarColor := colorLow } := by
    simp only [updateGpuRowUI, numOr]
    congr 1
  exact ⟨h, fun l => h⟩

/-- C9 as stated fails: when the container is wider than the viewport the handler sets
`left` to `0px`, which exceeds `viewportWidth - containerWidth`. -/
theorem onMouseMove_wide_container_not_within :
    (onMouseMove { button := 0, clientX := 150, clientY := 90 }
        { innerWidth := 200, innerHeight := 600, offsetLeft := 0, offsetTop := 40,
          offsetWidth := 280, offsetHeight := 180 }
        { isDragging := true, dragOffsetX := 30, dragOffsetY := 10 } defaultStyle).left
      = "0px" ∧
    ¬ (dragLeft { button := 0, clientX := 150, clientY := 90 }
        { innerWidth := 200, innerHeight := 600, offsetLeft := 0, offsetTop := 40,
          offsetWidth := 280, offsetHeight := 180 }
        { isDragging := true, dragOffsetX := 30, dragOffsetY := 10 } ≤ 200 - 280) := by
  decide

/-- C9, amended. While dragging, for every pointer position, drag offset, viewport size and
container size, the `mousemove` handler sets `left` to a value with
`0 ≤ left ≤ max(0, viewportWidth - containerWidth)` and `top` to a value with
`0 ≤ top ≤ max(0, viewportHeight - containerHeight)`; when the container is not larger
than the viewport these are the bounds `0 ≤ left ≤ viewportWidth - containerWidth` and
`0 ≤ top ≤ viewportHeight - containerHeight`. -/
theorem onMouseMove_clamped (e : MouseEvent) (layout : Layout) (drag : DragState)
    (style : ContainerStyle) (hdrag : drag.isDragging = true) :
    (onMouseMove e layout drag style).left = toString (dragLeft e layout drag) ++ "px" ∧
    (onMouseMove e layout drag style).top = toString (dragTop e layout drag) ++ "px" ∧
    0 ≤ dragLeft e layout drag ∧
    dragLeft e layout drag ≤ max 0 (layout.innerWidth - layout.offsetWidth) ∧
    0 ≤ dragTop e layout drag ∧
    dragTop e layout drag ≤ max 0 (layout.innerHeight - layout.offsetHeight) ∧
    (layout.offsetWidth ≤ layout.innerWidth →
      dragLeft e layout drag ≤ layout.innerWidth - layout.offsetWidth) ∧
    (layout.offsetHeight ≤ layout.innerHeight →
      dragTop e layout drag ≤ layout.innerHeight - layout.offsetHeight) := by
  refine ⟨?_, ?_, ?_, ?_, ?_, ?_, ?_, ?_⟩
  · simp [onMouseMove, hdrag]
  · simp [onMouseMove, hdrag]
  · simp only [dragLeft]; omega
  · simp only [dragLeft]; omega
  · simp only [dragTop]; omega
  · simp only [dragTop]; omega
  · intro h; simp only [dragLeft]; omega
  · intro h; simp only [dragTop]; omega

/-- A drag far to the right in a 1280 pixel wide viewport stops at the right edge. -/
theorem onMouseMove_clamped_witness :
    (onMouseMove { button := 0, clientX := 2000, clientY := 90 }
        { innerWidth := 1280, innerHeight := 600, offsetLeft := 995, offsetTop := 40,
          offsetWidth := 280, offsetHeight := 180 }
        { isDragging := true, dragOffsetX := 30, dragOffsetY := 10 } defaultStyle).left
      = toString (dragLeft { button := 0, clientX := 2000, clientY := 90 }
        { innerWidth := 1280, innerHeight := 600, offsetLeft := 995, offsetTop := 40,
          offsetWidth := 280, offsetHeight := 180 }
        { isDragging := true, dragOffsetX := 30, dragOffsetY := 10 }) ++ "px" ∧
    dragLeft { button := 0, clientX := 2000, clientY := 90 }
        { innerWidth := 1280, innerHeight := 600, offsetLeft := 995, offsetTop := 40,
          offsetWidth := 280, offsetHeight := 180 }
        { isDragging := true, dragOffsetX := 30, dragOffsetY := 10 } ≤ 1280 - 280 :=
  ⟨(onMouseMove_clamped _ _ _ _ rfl).1,
   (onMouseMove_clamped { button := 0, clientX := 2000, clientY := 90 }
        { innerWidth := 1280, innerHeight := 600, offsetLeft := 995, offsetTop := 40,
          offsetWidth := 280, offsetHeight := 180 }
        { isDragging := true, dragOffsetX := 30, dragOffsetY := 10 } defaultStyle
        rfl).2.2.2.2.2.2.1 (by decide)⟩

/-- C3. For every widget state, `updateMonitorUI` called with an absent snapshot, or with a
snapshot whose `gpus` is missing, not an array or an empty array, returns and changes
nothing: the row list, the registry, the contents of every row, the driver line and
the container are as before, whatever `device_type` and `driver` the snapshot carries. -/
theorem updateMonitorUI_noop (toUpperCase : String → String) (monitor : Monitor)
    (device_type : Option String) (driver : Option DriverInfo) :
    updateMonitorUI toUpperCase monitor none = (monitor, .returned) ∧
    updateMonitorUI toUpperCase monitor
      (some { device_type := device_type, driver := driver, gpus := .missing })
      = (monitor, .returned) ∧
    updateMonitorUI toUpperCase monitor
      (some { device_type := device_type, driver := driver, gpus := .notArray })
      = (monitor, .returned) ∧
    updateMonitorUI toUpperCase monitor
      (some { device_type := device_type, driver := driver, gpus := .array [] })
      = (monitor, .returned) :=
  ⟨rfl, rfl, rfl, rfl⟩

/-- A stored position that is not valid JSON, or that parses to `null`, leaves the
container style as it was. -/
theorem restoreSavedPosition_of_throw (jsonParse : String → Except Unit JsValue)
    (styleSet : String → JsValue → String) (saved : String) (style : ContainerStyle)
    (h : jsonParse saved = .error () ∨ jsonParse saved = .ok .null) :
    restoreSavedPosition jsonParse styleSet (some saved) style = style := by
  unfold restoreSavedPosition
  rcases h with h | h <;> simp [h, destructureLeftTop]

/-- C10 at the failing input: a stored position that parses to an object without `left` and
`top` makes `createMonitorElement` set `right` to `auto`, so the container does not keep
its default anchoring `right: 5px`. -/
theorem createMonitorElement_empty_object_unanchors
    (jsonParse : String → Except Unit JsValue) (styleSet : String → JsValue → String)
    (closed : Option String) (hparse : jsonParse "\x7b\x7d" = .ok (.object [])) :
    (createMonitorElement jsonParse styleSet
      { position := some "\x7b\x7d", closed := closed }).container.right = "auto" ∧
    (createMonitorElement jsonParse styleSet
      { position := some "\x7b\x7d", closed := closed }).container.right ≠ "5px" ∧
    (createMonitorElement jsonParse styleSet
      { position := some "\x7b\x7d", closed := closed }).container.left
        = styleSet "" .undefined := by
  have hne : ("\x7b\x7d" : String) ≠ "" := by decide
  have hr : (restoreSavedPosition jsonParse styleSet (some "\x7b\x7d") defaultStyle)
      = { defaultStyle with
          left := styleSet "" .undefined
          top := styleSet "40px" .undefined
          right := "auto" } := by
    simp [restoreSavedPosition, hne, hparse, destructureLeftTop, defaultStyle]
  simp only [createMonitorElement, hr]
  have hauto : ("auto" : String) ≠ "5px" := by decide
  split_ifs <;> exact ⟨rfl, hauto, rfl⟩

/-- The stored position of an empty object, with concrete stand-ins for the browser. -/
theorem createMonitorElement_empty_object_unanchors_witness :
    (createMonitorElement (fun _ => .ok (.object [])) (fun old _ => old)
      { position := some "\x7b\x7d", closed := none }).container.right = "auto" :=
  (createMonitorElement_empty_object_unanchors (fun _ => .ok (.object [])) (fun old _ => old)
    none rfl).1

/-! ## Registry lookups -/

theorem lookup_mem {l : List (String × Nat)} {k : String} {h : Nat}
    (hl : l.lookup k = some h) : (k, h) ∈ l := by
  induction l with
  | nil => simp at hl
  | cons p l ih =>
    obtain ⟨a, b⟩ := p
    rw [List.lookup_cons] at hl
    by_cases hk : k = a
    · subst hk
      simp at hl
      subst hl
      exact List.mem_cons_self _ _
    · have : (k == a) = false := by simpa using hk
      rw [this] at hl
      exact List.mem_cons_of_mem _ (ih hl)

theorem lookup_eq_none {l : List (String × Nat)} {k : String} :
    l.lookup k = none ↔ k ∉ l.map Prod.fst := by
  induction l with
  | nil => simp
  | cons p l ih =>
    obtain ⟨a, b⟩ := p
    rw [List.lookup_cons]
    by_cases hk : k = a
    · subst hk
      simp
    · have : (k == a) = false := by simpa using hk
      rw [this]
      simp only [List.map_cons, List.mem_cons, not_or]
      rw [ih]
      exact ⟨fun h => ⟨hk, h⟩, fun h => h.2⟩

theorem lookup_append_of_some {l : List (String × Nat)} {k : String} {h : Nat}
    (ext : List (String × Nat)) (hl : l.lookup k = some h) :
    (l ++ ext).lookup k = some h := by
  rw [List.lookup_append, hl]
  rfl

theorem lookup_append_of_none {l : List (String × Nat)} {k : String}
    (ext : List (String × Nat)) (hl : l.lookup k = none) :
    (l ++ ext).lookup k = ext.lookup k := by
  rw [List.lookup_append, hl]
  rfl

theorem lookup_filter_ne {l : List (String × Nat)} {k key : String} (hk : k ≠ key) :
    (l.filter (fun p => p.1 != key)).lookup k = l.lookup k := by
  induction l with
  | nil => rfl
  | cons p l ih =>
    obtain ⟨a, b⟩ := p
    by_cases ha : a = key
    · subst ha
      have h1 : ((a, b) :: l).filter (fun p => p.1 != a) = l.filter (fun p => p.1 != a) := by
        simp
      have h2 : (k == a) = false := by simpa using hk
      rw [h1, ih, List.lookup_cons, h2]
    · have h1 : ((a, b) :: l).filter (fun p => p.1 != key)
          = (a, b) :: l.filter (fun p => p.1 != key) := by
        simp [ha]
      rw [h1, List.lookup_cons, List.lookup_cons, ih]

theorem getRow_own_iff {l : List (String × Nat)} {k : String} {h : Nat} :
    getRow l k = .own h ↔ l.lookup k = some h := by
  unfold getRow
  cases hl : l.lookup k with
  | none => simp only []; split_ifs <;> simp
  | some v => simp

theorem getRow_congr {l l2 : List (String × Nat)} {k : String}
    (h : l2.lookup k = l.lookup k) : getRow l2 k = getRow l k := by
  unfold getRow
  rw [h]

theorem getRow_undefined {l : List (String × Nat)} {k : String}
    (h : getRow l k = .undefined) : l.lookup k = none ∧ k ∉ objectPrototypeKeys := by
  unfold getRow at h
  cases hl : l.lookup k with
  | none =>
    rw [hl] at h
    simp only [] at h
    split_ifs at h with hp
    exact ⟨rfl, hp⟩
  | some v => rw [hl] at h; simp at h

theorem getRow_inherited {l : List (String × Nat)} {k : String}
    (h : getRow l k = .inherited) : l.lookup k = none ∧ k ∈ objectPrototypeKeys := by
  unfold getRow at h
  cases hl : l.lookup k with
  | none =>
    rw [hl] at h
    simp only [] at h
    split_ifs at h with hp
    exact ⟨rfl, hp⟩
  | some v => rw [hl] at h; simp at h

/-! ## Row assignments -/

theorem updateRowAt_eq_set (rows : List RowUI) (handle : Nat) (gpu : GpuRecord) :
    updateRowAt rows handle gpu = rows.set handle (shownFor gpu) := by
  unfold updateRowAt
  cases hr : rows[handle]? with
  | none =>
    have hlen : rows.length ≤ handle := by
      by_contra hc
      push_neg at hc
      rw [List.getElem?_eq_getElem hc] at hr
      exact Option.noConfusion hr
    exact (List.set_eq_of_length_le hlen).symm
  | some r => rfl

theorem updateRowAt_created (rows : List RowUI) (created : RowUI) (gpu : GpuRecord) :
    updateRowAt (rows ++ [created]) rows.length gpu = rows ++ [shownFor gpu] := by
  rw [updateRowAt_eq_set]
  simp

theorem writeAll_cons (rows : List RowUI) (w : Nat × RowUI) (ws : List (Nat × RowUI)) :
    writeAll rows (w :: ws) = writeAll (rows.set w.1 w.2) ws := rfl

theorem writeAll_snoc (rows : List RowUI) (w : Nat × RowUI) (ws : List (Nat × RowUI)) :
    writeAll rows (ws ++ [w]) = (writeAll rows ws).set w.1 w.2 := by
  unfold writeAll
  rw [List.foldl_append]
  rfl

theorem writeAll_set_then_set (ws : List (Nat × RowUI)) (rows : List RowUI) (j : Nat)
    (v v2 : RowUI) :
    (writeAll (rows.set j v) ws).set j v2 = (writeAll rows ws).set j v2 := by
  induction ws generalizing rows with
  | nil => exact List.set_set _ _ _ _
  | cons w ws ih =>
    rw [writeAll_cons, writeAll_cons]
    by_cases hj : j = w.1
    · subst hj
      rw [List.set_set]
    · rw [List.set_comm _ _ _ hj, ih]

/-- An assignment to a row that the sequence assigns later has no effect on the result. -/
theorem writeAll_set_of_mem (ws : List (Nat × RowUI)) (rows : List RowUI) (j : Nat)
    (v : RowUI) (hj : j ∈ ws.map Prod.fst) :
    writeAll (rows.set j v) ws = writeAll rows ws := by
  induction ws generalizing rows with
  | nil => simp at hj
  | cons w ws ih =>
    rw [writeAll_cons, writeAll_cons]
    by_cases hw : j = w.1
    · subst hw
      rw [List.set_set]
    · have hj2 : j ∈ ws.map Prod.fst := by
        rcases List.mem_cons.1 hj with h | h
        · exact absurd h hw
        · exact h
      rw [List.set_comm _ _ _ hw, ih _ hj2]

/-- Replaying a sequence of row assignments on its own result changes nothing. -/
theorem writeAll_idem (ws : List (Nat × RowUI)) (rows : List RowUI) :
    writeAll (writeAll rows ws) ws = writeAll rows ws := by
  induction ws using List.reverseRecOn generalizing rows with
  | nil => rfl
  | append_singleton ws w ih =>
    rw [writeAll_snoc, writeAll_snoc, writeAll_set_then_set, ih]

/-! ## The loop over the records -/

theorem forEachGpu_own {gpu : GpuRecord} {idx : Nat} {monitor : Monitor} {handle : Nat}
    (rest : List GpuRecord) (hget : getRow monitor.gpuRows (gpuKey gpu idx) = .own handle) :
    forEachGpu (gpu :: rest) idx monitor
      = forEachGpu rest (idx + 1)
          { monitor with rows := monitor.rows.set handle (shownFor gpu) } := by
  rw [forEachGpu]
  simp only [hget, updateRowAt_eq_set]

theorem forEachGpu_inherited {gpu : GpuRecord} {idx : Nat} {monitor : Monitor}
    (rest : List GpuRecord) (hget : getRow monitor.gpuRows (gpuKey gpu idx) = .inherited) :
    forEachGpu (gpu :: rest) idx monitor = (monitor, .threw) := by
  rw [forEachGpu]
  simp only [hget]

theorem forEachGpu_undefined {gpu : GpuRecord} {idx : Nat} {monitor : Monitor}
    (rest : List GpuRecord) (hget : getRow monitor.gpuRows (gpuKey gpu idx) = .undefined) :
    forEachGpu (gpu :: rest) idx monitor
      = forEachGpu rest (idx + 1)
          { monitor with
            rows := monitor.rows ++ [shownFor gpu]
            gpuList := monitor.gpuList ++ [monitor.rows.length]
            gpuRows := monitor.gpuRows ++ [(gpuKey gpu idx, monitor.rows.length)] } := by
  rw [forEachGpu]
  simp only [hget, updateRowAt_created]

/-- The loop leaves the container and the driver line alone. -/
theorem forEachGpu_frame (recs : List GpuRecord) (idx : Nat) (monitor : Monitor) :
    (forEachGpu recs idx monitor).1.container = monitor.container ∧
    (forEachGpu recs idx monitor).1.driverLine = monitor.driverLine := by
  induction recs generalizing idx monitor with
  | nil => exact ⟨rfl, rfl⟩
  | cons gpu rest ih =>
    cases hget : getRow monitor.gpuRows (gpuKey gpu idx) with
    | own handle => rw [forEachGpu_own rest hget]; exact ih _ _
    | inherited => rw [forEachGpu_inherited rest hget]; exact ⟨rfl, rfl⟩
    | undefined => rw [forEachGpu_undefined rest hget]; exact ih _ _

/-- A key registered before the loop is registered to the same handle after it. -/
theorem forEachGpu_lookup (recs : List GpuRecord) (idx : Nat) (monitor : Monitor)
    {k : String} {h : Nat} (hk : monitor.gpuRows.lookup k = some h) :
    (forEachGpu recs idx monitor).1.gpuRows.lookup k = some h := by
  induction recs generalizing idx monitor with
  | nil => exact hk
  | cons gpu rest ih =>
    cases hget : getRow monitor.gpuRows (gpuKey gpu idx) with
    | own handle => rw [forEachGpu_own rest hget]; exact ih _ _ hk
    | inherited => rw [forEachGpu_inherited rest hget]; exact hk
    | undefined =>
      rw [forEachGpu_undefined rest hget]
      exact ih _ _ (lookup_append_of_some _ hk)

/-- The rows after the loop are the rows before it, extended by the rows built, with
the assignments replayed against the final registry, which assign every row built; the
final registry has every processed key registered and decides how the loop ended. -/
theorem forEachGpu_replay (recs : List GpuRecord) (idx : Nat) (monitor : Monitor) :
    Registered (forEachGpu recs idx monitor).1.gpuRows recs idx ∧
    (forEachGpu recs idx monitor).2
      = loopCompletion (forEachGpu recs idx monitor).1.gpuRows recs idx ∧
    ∃ built : List RowUI,
      (forEachGpu recs idx monitor).1.rows
        = writeAll (monitor.rows ++ built)
            (writesOf (forEachGpu recs idx monitor).1.gpuRows recs idx) ∧
      ∀ j, monitor.rows.length ≤ j → j < monitor.rows.length + built.length →
        j ∈ (writesOf (forEachGpu recs idx monitor).1.gpuRows recs idx).map Prod.fst := by
  induction recs generalizing idx monitor with
  | nil =>
    refine ⟨trivial, rfl, [], by simp [forEachGpu, writesOf, writeAll], ?_⟩
    intro j h1 h2
    simp only [List.length_nil, Nat.add_zero] at h2
    omega
  | cons gpu rest ih =>
    cases hget : getRow monitor.gpuRows (gpuKey gpu idx) with
    | own handle =>
      have hlook := getRow_own_iff.1 hget
      obtain ⟨h2, h3, built, h4, h5⟩ := ih (idx + 1)
        { monitor with rows := monitor.rows.set handle (shownFor gpu) }
      rw [forEachGpu_own rest hget]
      have hfinal := getRow_own_iff.2
        (forEachGpu_lookup rest (idx + 1)
          { monitor with rows := monitor.rows.set handle (shownFor gpu) } hlook)
      simp only [List.length_set] at h5
      refine ⟨?_, ?_, built, ?_, ?_⟩
      · simp only [Registered, hfinal]; exact h2
      · simp only [loopCompletion, hfinal]; exact h3
      · simp only [writesOf, hfinal, writeAll_cons]
        rw [h4]
        by_cases hlt : handle < monitor.rows.length
        · rw [List.set_append_left _ _ hlt]
        · have hge : monitor.rows.length ≤ handle := Nat.le_of_not_lt hlt
          have hset : monitor.rows.set handle (shownFor gpu) = monitor.rows :=
            List.set_eq_of_length_le hge
          rw [hset] at h5 ⊢
          by_cases hin : handle < monitor.rows.length + built.length
          · rw [writeAll_set_of_mem _ _ _ _ (h5 handle hge hin)]
          · rw [List.set_eq_of_length_le (by simp only [List.length_append]; omega)]
      · intro j hj1 hj2
        simp only [writesOf, hfinal, List.map_cons]
        exact List.mem_cons_of_mem _ (h5 j hj1 hj2)
    | inherited =>
      rw [forEachGpu_inherited rest hget]
      refine ⟨?_, ?_, [], ?_, ?_⟩
      · simp only [Registered, hget]
      · simp only [loopCompletion, hget]
      · simp [writesOf, hget, writeAll]
      · intro j h1 h2
        simp only [List.length_nil, Nat.add_zero] at h2
        omega
    | undefined =>
      have hnone := (getRow_undefined hget).1
      have hlook : (monitor.gpuRows ++ [(gpuKey gpu idx, monitor.rows.length)]).lookup
          (gpuKey gpu idx) = some monitor.rows.length := by
        rw [lookup_append_of_none _ hnone]
        simp [List.lookup_cons]
      obtain ⟨h2, h3, built, h4, h5⟩ := ih (idx + 1)
        { monitor with
          rows := monitor.rows ++ [shownFor gpu]
          gpuList := monitor.gpuList ++ [monitor.rows.length]
          gpuRows := monitor.gpuRows ++ [(gpuKey gpu idx, monitor.rows.length)] }
      rw [forEachGpu_undefined rest hget]
      have hfinal := getRow_own_iff.2
        (forEachGpu_lookup rest (idx + 1)
          { monitor with
            rows := monitor.rows ++ [shownFor gpu]
            gpuList := monitor.gpuList ++ [monitor.rows.length]
            gpuRows := monitor.gpuRows ++ [(gpuKey gpu idx, monitor.rows.length)] } hlook)
      simp only [List.length_append, List.length_singleton] at h5
      refine ⟨?_, ?_, shownFor gpu :: built, ?_, ?_⟩
      · simp only [Registered, hfinal]; exact h2
      · simp only [loopCompletion, hfinal]; exact h3
      · simp only [writesOf, hfinal, writeAll_cons]
        rw [h4]
        congr 1
        simp
      · intro j hj1 hj2
        simp only [writesOf, hfinal, List.map_cons, List.mem_cons]
        simp only [List.length_cons] at hj2
        by_cases hj : j = monitor.rows.length
        · exact Or.inl hj
        · exact Or.inr (h5 j (by omega) (by omega))

/-- Against a registry that has every processed key registered, the loop only replays
the row assignments. -/
theorem forEachGpu_of_registered (recs : List GpuRecord) (idx : Nat) (monitor : Monitor)
    (hreg : Registered monitor.gpuRows recs idx) :
    forEachGpu recs idx monitor
      = ({ monitor with rows := writeAll monitor.rows (writesOf monitor.gpuRows recs idx) },
         loopCompletion monitor.gpuRows recs idx) := by
  induction recs generalizing idx monitor with
  | nil => rfl
  | cons gpu rest ih =>
    cases hget : getRow monitor.gpuRows (gpuKey gpu idx) with
    | own handle =>
      simp only [Registered, hget] at hreg
      rw [forEachGpu_own rest hget,
        ih (idx + 1) { monitor with rows := monitor.rows.set handle (shownFor gpu) } hreg]
      simp only [writesOf, loopCompletion, hget, writeAll_cons]
    | inherited =>
      rw [forEachGpu_inherited rest hget]
      simp only [writesOf, loopCompletion, hget, writeAll, List.foldl_nil]
    | undefined =>
      simp only [Registered, hget] at hreg

/-- Registries that agree on the keys of the records drive the loop alike. -/
theorem replay_congr (recs : List GpuRecord) (idx : Nat) (l l2 : List (String × Nat))
    (h : ∀ k ∈ seenKeysFrom recs idx, l2.lookup k = l.lookup k) :
    writesOf l2 recs idx = writesOf l recs idx ∧
    loopCompletion l2 recs idx = loopCompletion l recs idx ∧
    (Registered l recs idx → Registered l2 recs idx) := by
  induction recs generalizing idx with
  | nil => exact ⟨rfl, rfl, fun _ => trivial⟩
  | cons gpu rest ih =>
    have hk : getRow l2 (gpuKey gpu idx) = getRow l (gpuKey gpu idx) :=
      getRow_congr (h _ (List.mem_cons_self _ _))
    obtain ⟨h1, h2, h3⟩ := ih (idx + 1) (fun k hk => h k (List.mem_cons_of_mem _ hk))
    simp only [writesOf, loopCompletion, Registered, hk]
    cases getRow l (gpuKey gpu idx) with
    | own handle => exact ⟨by rw [h1], h2, h3⟩
    | inherited => exact ⟨rfl, rfl, fun _ => trivial⟩
    | undefined => exact ⟨rfl, rfl, fun hf => hf⟩

/-! ## The removal loop -/

theorem mem_objectKeys {gpuRows : List (String × Nat)} {k : String} :
    k ∈ objectKeys gpuRows ↔ k ∈ gpuRows.map Prod.fst := by
  unfold objectKeys
  simp only [List.mem_append, List.mem_insertionSort, List.mem_filter]
  constructor
  · rintro (h | h) <;> exact h.1
  · intro h
    cases hk : arrayIndex? k with
    | none => right; exact ⟨h, by simp⟩
    | some n => left; exact ⟨h, by simp⟩

theorem removeStale_cons_seen {seenKeys : List String} {key : String}
    (rest : List String) (monitor : Monitor) (h : key ∈ seenKeys) :
    removeStale seenKeys (key :: rest) monitor = removeStale seenKeys rest monitor := by
  rw [removeStale, if_pos h]

theorem removeStale_cons_stale {seenKeys : List String} {key : String}
    (rest : List String) (monitor : Monitor) (h : key ∉ seenKeys) :
    removeStale seenKeys (key :: rest) monitor
      = removeStale seenKeys rest
          { monitor with
            gpuList :=
              match getRow monitor.gpuRows key with
              | .own handle =>
                if handle ∈ monitor.gpuList then monitor.gpuList.erase handle
                else monitor.gpuList
              | _ => monitor.gpuList
            gpuRows := monitor.gpuRows.filter (fun p => p.1 != key) } := by
  rw [removeStale, if_neg h]

/-- The removal loop leaves the container, the driver line and the row contents alone. -/
theorem removeStale_frame (seenKeys ks : List String) (monitor : Monitor) :
    (removeStale seenKeys ks monitor).container = monitor.container ∧
    (removeStale seenKeys ks monitor).driverLine = monitor.driverLine ∧
    (removeStale seenKeys ks monitor).rows = monitor.rows := by
  induction ks generalizing monitor with
  | nil => exact ⟨rfl, rfl, rfl⟩
  | cons key rest ih =>
    by_cases h : key ∈ seenKeys
    · rw [removeStale_cons_seen rest monitor h]; exact ih _
    · rw [removeStale_cons_stale rest monitor h]; exact ih _

/-- When every listed key was seen, the removal loop does nothing. -/
theorem removeStale_of_seen (seenKeys ks : List String) (monitor : Monitor)
    (h : ∀ k ∈ ks, k ∈ seenKeys) : removeStale seenKeys ks monitor = monitor := by
  induction ks with
  | nil => rfl
  | cons key rest ih =>
    rw [removeStale_cons_seen rest monitor (h key (List.mem_cons_self _ _))]
    exact ih (fun k hk => h k (List.mem_cons_of_mem _ hk))

/-- The removal loop keeps the registration of every key that was seen. -/
theorem removeStale_lookup (seenKeys ks : List String) (monitor : Monitor) {k : String}
    (hk : k ∈ seenKeys) :
    (removeStale seenKeys ks monitor).gpuRows.lookup k = monitor.gpuRows.lookup k := by
  induction ks generalizing monitor with
  | nil => rfl
  | cons key rest ih =>
    by_cases h : key ∈ seenKeys
    · rw [removeStale_cons_seen rest monitor h]; exact ih _
    · rw [removeStale_cons_stale rest monitor h, ih]
      exact lookup_filter_ne (fun hkk => h (hkk ▸ hk))

/-- After the removal loop every registered key that was listed was seen. -/
theorem removeStale_mem (seenKeys ks : List String) (monitor : Monitor)
    {p : String × Nat} (hp : p ∈ (removeStale seenKeys ks monitor).gpuRows) :
    p ∈ monitor.gpuRows ∧ (p.1 ∈ ks → p.1 ∈ seenKeys) := by
  induction ks generalizing monitor with
  | nil => exact ⟨hp, fun h => absurd h (List.not_mem_nil _)⟩
  | cons key rest ih =>
    by_cases h : key ∈ seenKeys
    · rw [removeStale_cons_seen rest monitor h] at hp
      obtain ⟨h1, h2⟩ := ih _ hp
      refine ⟨h1, fun hm => ?_⟩
      rcases List.mem_cons.1 hm with hm | hm
      · exact hm ▸ h
      · exact h2 hm
    · rw [removeStale_cons_stale rest monitor h] at hp
      obtain ⟨h1, h2⟩ := ih _ hp
      simp only [List.mem_filter, bne_iff_ne, ne_eq] at h1
      refine ⟨h1.1, fun hm => ?_⟩
      rcases List.mem_cons.1 hm with hm | hm
      · exact absurd hm h1.2
      · exact h2 hm

/-! ## Idempotence of a reconcile pass -/

theorem updateMonitorUI_array {toUpperCase : String → String} (monitor : Monitor)
    (snapshot : Snapshot) {gpus : List GpuRecord} (hg : snapshot.gpus = .array gpus)
    (hne : gpus ≠ []) :
    updateMonitorUI toUpperCase monitor (some snapshot)
      = match forEachGpu gpus 0
            { monitor with driverLine := driverLineText toUpperCase snapshot } with
        | (looped, .threw) => (looped, .threw)
        | (looped, .returned) =>
          (removeStale (seenKeysFrom gpus 0) (objectKeys looped.gpuRows) looped, .returned) := by
  have hlen : ¬ gpus.length = 0 := fun h => hne (List.length_eq_zero.1 h)
  simp only [updateMonitorUI, hg, if_neg hlen]

/-- C2. Reconciling is idempotent: for every widget state and every payload, running
`updateMonitorUI` again with the same payload on the state the first call produced
yields that very state and ends the same way.  No row is built or removed, the row list
and the registry are the same (the same handles under the same keys, in the same
order), and every row shows the same contents. -/
theorem updateMonitorUI_idempotent (toUpperCase : String → String) (monitor : Monitor)
    (data : Option Snapshot) :
    updateMonitorUI toUpperCase (updateMonitorUI toUpperCase monitor data).1 data
      = updateMonitorUI toUpperCase monitor data := by
  cases data with
  | none => rfl
  | some snapshot =>
    cases hg : snapshot.gpus with
    | missing => simp only [updateMonitorUI, hg]
    | notArray => simp only [updateMonitorUI, hg]
    | array gpus =>
      by_cases hne : gpus = []
      · subst hne
        simp only [updateMonitorUI, hg, List.length_nil, if_true]
      · rw [updateMonitorUI_array monitor snapshot hg hne]
        obtain ⟨hreg, hcompl, built, hrows, -⟩ := forEachGpu_replay gpus 0
          { monitor with driverLine := driverLineText toUpperCase snapshot }
        obtain ⟨-, hdrv⟩ := forEachGpu_frame gpus 0
          { monitor with driverLine := driverLineText toUpperCase snapshot }
        have hidem := writeAll_idem
          (writesOf (forEachGpu gpus 0
            { monitor with driverLine := driverLineText toUpperCase snapshot }).1.gpuRows gpus 0)
          (monitor.rows ++ built)
        rw [← hrows] at hidem
        generalize forEachGpu gpus 0
          { monitor with driverLine := driverLineText toUpperCase snapshot } = res
          at hreg hcompl hrows hdrv hidem
        obtain ⟨looped, completion⟩ := res
        simp only at hreg hcompl hdrv hidem
        cases completion with
        | threw =>
          simp only []
          rw [updateMonitorUI_array looped snapshot hg hne]
          have hsame : { looped with driverLine := driverLineText toUpperCase snapshot }
              = looped := by rw [← hdrv]
          rw [hsame, forEachGpu_of_registered gpus 0 looped hreg, hidem, ← hcompl]
        | returned =>
          simp only []
          rw [updateMonitorUI_array _ snapshot hg hne]
          obtain ⟨hc, hd, hr⟩ := removeStale_frame (seenKeysFrom gpus 0)
            (objectKeys looped.gpuRows) looped
          have hlookup : ∀ k ∈ seenKeysFrom gpus 0,
              (removeStale (seenKeysFrom gpus 0) (objectKeys looped.gpuRows) looped).gpuRows.lookup k
                = looped.gpuRows.lookup k :=
            fun k hk => removeStale_lookup _ _ _ hk
          obtain ⟨hw, hl, hreg2⟩ := replay_congr gpus 0 _ _ hlookup
          have hsame :
              { removeStale (seenKeysFrom gpus 0) (objectKeys looped.gpuRows) looped with
                driverLine := driverLineText toUpperCase snapshot }
              = removeStale (seenKeysFrom gpus 0) (objectKeys looped.gpuRows) looped := by
            rw [← hdrv, ← hd]
          rw [hsame, forEachGpu_of_registered gpus 0 _ (hreg2 hreg), hw, hl, hr, hidem,
            ← hcompl]
          simp only []
          have hseen : ∀ k ∈ objectKeys
              (removeStale (seenKeysFrom gpus 0) (objectKeys looped.gpuRows) looped).gpuRows,
              k ∈ seenKeysFrom gpus 0 := by
            intro k hk
            obtain ⟨p, hp, hpk⟩ := List.mem_map.1 (mem_objectKeys.1 hk)
            obtain ⟨hp1, hp2⟩ := removeStale_mem _ _ _ hp
            rw [← hpk]
            exact hp2 (mem_objectKeys.2 (List.mem_map_of_mem _ hp1))
          rw [removeStale_of_seen _ _ _ hseen]
          rw [← hr]

/-! ## Keys seen for the first time -/

theorem mem_firstSeen {known ks : List String} {k : String} :
    k ∈ firstSeen known ks ↔ k ∈ ks ∧ k ∉ known := by
  induction ks generalizing known with
  | nil => simp [firstSeen]
  | cons a ks ih =>
    rw [firstSeen]
    split_ifs with ha
    · rw [ih]
      constructor
      · rintro ⟨h1, h2⟩; exact ⟨List.mem_cons_of_mem _ h1, h2⟩
      · rintro ⟨h1, h2⟩
        rcases List.mem_cons.1 h1 with h1 | h1
        · exact absurd (h1 ▸ ha) h2
        · exact ⟨h1, h2⟩
    · rw [List.mem_cons, ih]
      constructor
      · rintro (h | ⟨h1, h2⟩)
        · exact ⟨h ▸ List.mem_cons_self _ _, h ▸ ha⟩
        · exact ⟨List.mem_cons_of_mem _ h1, fun hk => h2 (List.mem_append_left _ hk)⟩
      · rintro ⟨h1, h2⟩
        by_cases hka : k = a
        · exact Or.inl hka
        · right
          rcases List.mem_cons.1 h1 with h1 | h1
          · exact absurd h1 hka
          · refine ⟨h1, fun hk => ?_⟩
            rcases List.mem_append.1 hk with hk | hk
            · exact h2 hk
            · exact hka (List.mem_singleton.1 hk)

theorem firstSeen_nodup (known ks : List String) : (firstSeen known ks).Nodup := by
  induction ks generalizing known with
  | nil => exact List.nodup_nil
  | cons a ks ih =>
    rw [firstSeen]
    split_ifs with ha
    · exact ih _
    · refine List.nodup_cons.2 ⟨fun hm => ?_, ih _⟩
      exact (mem_firstSeen.1 hm).2 (List.mem_append_right _ (List.mem_singleton_self _))

/-- Keys that are pairwise distinct and all new are seen for the first time in their own order. -/
theorem firstSeen_of_nodup (known ks : List String) (hnd : ks.Nodup)
    (hnew : ∀ k ∈ ks, k ∉ known) : firstSeen known ks = ks := by
  induction ks generalizing known with
  | nil => rfl
  | cons a ks ih =>
    rw [firstSeen, if_neg (hnew a (List.mem_cons_self _ _))]
    have hnd2 := List.nodup_cons.1 hnd
    rw [ih (known ++ [a]) hnd2.2]
    intro k hk hmem
    rcases List.mem_append.1 hmem with hmem | hmem
    · exact hnew k (List.mem_cons_of_mem _ hk) hmem
    · exact hnd2.1 (List.mem_singleton.1 hmem ▸ hk)

/-! ## The shape of the widget state is kept -/

theorem forEachGpu_consistent (recs : List GpuRecord) (idx : Nat) (monitor : Monitor)
    (hc : Consistent monitor) : Consistent (forEachGpu recs idx monitor).1 := by
  induction recs generalizing idx monitor with
  | nil => exact hc
  | cons gpu rest ih =>
    cases hget : getRow monitor.gpuRows (gpuKey gpu idx) with
    | own handle =>
      rw [forEachGpu_own rest hget]
      refine ih _ _ ⟨?_, hc.keys_nodup, hc.handles_nodup, hc.list_eq⟩
      intro p hp
      simpa using hc.valid p hp
    | inherited => rw [forEachGpu_inherited rest hget]; exact hc
    | undefined =>
      rw [forEachGpu_undefined rest hget]
      have hnone := lookup_eq_none.1 (getRow_undefined hget).1
      refine ih _ _ ⟨?_, ?_, ?_, ?_⟩
      · intro p hp
        simp only [List.mem_append, List.mem_singleton] at hp
        simp only [List.length_append, List.length_singleton]
        rcases hp with hp | hp
        · exact Nat.lt_succ_of_lt (hc.valid p hp)
        · subst hp; exact Nat.lt_succ_self _
      · simp only [List.map_append, List.map_cons, List.map_nil]
        refine List.Nodup.append hc.keys_nodup (List.nodup_singleton _) ?_
        intro k hk hk2
        exact hnone (List.mem_singleton.1 hk2 ▸ hk)
      · simp only [List.map_append, List.map_cons, List.map_nil]
        refine List.Nodup.append hc.handles_nodup (List.nodup_singleton _) ?_
        intro h hh hh2
        obtain ⟨p, hp, hph⟩ := List.mem_map.1 hh
        have := hc.valid p hp
        rw [hph, List.mem_singleton.1 hh2] at this
        exact Nat.lt_irrefl _ this
      · simp only [List.map_append, List.map_cons, List.map_nil]
        rw [hc.list_eq]

/-- When no key of the records is a name inherited from `Object.prototype`, the loop
returns, keeps every registration and appends one entry, with a new row, per key seen
for the first time, in the order of first occurrence. -/
theorem forEachGpu_safe (recs : List GpuRecord) (idx : Nat) (monitor : Monitor)
    (hsafe : ∀ k ∈ seenKeysFrom recs idx, k ∉ objectPrototypeKeys) :
    (forEachGpu recs idx monitor).2 = .returned ∧
    ∃ ext : List (String × Nat),
      (forEachGpu recs idx monitor).1.gpuRows = monitor.gpuRows ++ ext ∧
      (forEachGpu recs idx monitor).1.gpuList = monitor.gpuList ++ ext.map Prod.snd ∧
      ext.map Prod.fst
        = firstSeen (monitor.gpuRows.map Prod.fst) (seenKeysFrom recs idx) ∧
      ∀ p ∈ ext, monitor.rows.length ≤ p.2 := by
  induction recs generalizing idx monitor with
  | nil =>
    exact ⟨rfl, [], by simp [forEachGpu], by simp [forEachGpu], rfl,
      fun p hp => absurd hp (List.not_mem_nil _)⟩
  | cons gpu rest ih =>
    have hsafe2 : ∀ k ∈ seenKeysFrom rest (idx + 1), k ∉ objectPrototypeKeys :=
      fun k hk => hsafe k (List.mem_cons_of_mem _ hk)
    cases hget : getRow monitor.gpuRows (gpuKey gpu idx) with
    | own handle =>
      rw [forEachGpu_own rest hget]
      obtain ⟨h1, ext, h2, h3, h4, h5⟩ := ih (idx + 1)
        { monitor with rows := monitor.rows.set handle (shownFor gpu) } hsafe2
      simp only [List.length_set] at h5
      refine ⟨h1, ext, h2, h3, ?_, h5⟩
      have hmem : gpuKey gpu idx ∈ monitor.gpuRows.map Prod.fst :=
        List.mem_map.2 ⟨_, lookup_mem (getRow_own_iff.1 hget), rfl⟩
      rw [h4, seenKeysFrom, firstSeen, if_pos hmem]
    | inherited =>
      exact absurd (getRow_inherited hget).2 (hsafe _ (List.mem_cons_self _ _))
    | undefined =>
      rw [forEachGpu_undefined rest hget]
      have hnone := lookup_eq_none.1 (getRow_undefined hget).1
      obtain ⟨h1, ext, h2, h3, h4, h5⟩ := ih (idx + 1)
        { monitor with
          rows := monitor.rows ++ [shownFor gpu]
          gpuList := monitor.gpuList ++ [monitor.rows.length]
          gpuRows := monitor.gpuRows ++ [(gpuKey gpu idx, monitor.rows.length)] } hsafe2
      simp only [List.length_append, List.length_singleton] at h5
      refine ⟨h1, (gpuKey gpu idx, monitor.rows.length) :: ext, ?_, ?_, ?_, ?_⟩
      · rw [h2]; simp
      · rw [h3]; simp
      · rw [seenKeysFrom, firstSeen, if_neg hnone, List.map_cons, h4]
        simp
      · intro p hp
        rcases List.mem_cons.1 hp with hp | hp
        · subst hp; exact Nat.le_refl _
        · exact Nat.le_of_succ_le (h5 p hp)

/-! ## The removal loop on a consistent state -/

theorem erase_handle_eq_filter_key {l : List (String × Nat)} {key : String} {handle : Nat}
    (hk : (l.map Prod.fst).Nodup) (hh : (l.map Prod.snd).Nodup) (hmem : (key, handle) ∈ l) :
    (l.map Prod.snd).erase handle = (l.filter (fun p => p.1 != key)).map Prod.snd := by
  rw [List.Nodup.erase_eq_filter hh, List.filter_map]
  congr 1
  apply List.filter_congr
  intro p hp
  simp only [Function.comp_apply]
  by_cases hpk : p.1 = key
  · have : p = (key, handle) := List.inj_on_of_nodup_map hk hp hmem hpk
    subst this
    simp
  · have hph : p.2 ≠ handle := by
      intro hph
      have : p = (key, handle) := List.inj_on_of_nodup_map hh hp hmem hph
      exact hpk (by rw [this])
    rw [bne_iff_ne.2 hph, bne_iff_ne.2 hpk]

theorem filter_key_eq_self {l : List (String × Nat)} {key : String}
    (h : l.lookup key = none) : l.filter (fun p => p.1 != key) = l := by
  rw [List.filter_eq_self]
  intro p hp
  have hnot := lookup_eq_none.1 h
  simp only [bne_iff_ne, ne_eq]
  intro hpk
  exact hnot (List.mem_map.2 ⟨p, hp, hpk⟩)

/-- On a consistent state the removal loop keeps exactly the entries whose key was seen
or not listed, and the row list follows the registry. -/
theorem removeStale_filter (seenKeys ks : List String) (monitor : Monitor)
    (hk : (monitor.gpuRows.map Prod.fst).Nodup) (hh : (monitor.gpuRows.map Prod.snd).Nodup)
    (hl : monitor.gpuList = monitor.gpuRows.map Prod.snd) :
    (removeStale seenKeys ks monitor).gpuRows
      = monitor.gpuRows.filter (fun p => decide (p.1 ∈ seenKeys ∨ p.1 ∉ ks)) ∧
    (removeStale seenKeys ks monitor).gpuList
      = (removeStale seenKeys ks monitor).gpuRows.map Prod.snd := by
  induction ks generalizing monitor with
  | nil =>
    refine ⟨?_, hl⟩
    simp [removeStale]
  | cons key rest ih =>
    by_cases h : key ∈ seenKeys
    · rw [removeStale_cons_seen rest monitor h]
      obtain ⟨h1, h2⟩ := ih monitor hk hh hl
      refine ⟨?_, h2⟩
      rw [h1]
      apply List.filter_congr
      intro p _
      simp only [List.mem_cons, not_or, decide_eq_decide]
      constructor
      · rintro (hp | hp)
        · exact Or.inl hp
        · by_cases hps : p.1 ∈ seenKeys
          · exact Or.inl hps
          · exact Or.inr ⟨fun hpk => hps (hpk ▸ h), hp⟩
      · rintro (hp | hp)
        · exact Or.inl hp
        · exact Or.inr hp.2
    · rw [removeStale_cons_stale rest monitor h]
      have hk2 : ((monitor.gpuRows.filter (fun p => p.1 != key)).map Prod.fst).Nodup :=
        (hk.sublist ((List.filter_sublist _).map _))
      have hh2 : ((monitor.gpuRows.filter (fun p => p.1 != key)).map Prod.snd).Nodup :=
        (hh.sublist ((List.filter_sublist _).map _))
      have hl2 : (match getRow monitor.gpuRows key with
            | .own handle =>
              if handle ∈ monitor.gpuList then monitor.gpuList.erase handle
              else monitor.gpuList
            | _ => monitor.gpuList)
          = (monitor.gpuRows.filter (fun p => p.1 != key)).map Prod.snd := by
        cases hget : getRow monitor.gpuRows key with
        | own handle =>
          have hmem := lookup_mem (getRow_own_iff.1 hget)
          have hin : handle ∈ monitor.gpuList := by
            rw [hl]; exact List.mem_map.2 ⟨_, hmem, rfl⟩
          simp only [if_pos hin]
          rw [hl]
          exact erase_handle_eq_filter_key hk hh hmem
        | inherited =>
          simp only []
          rw [filter_key_eq_self (getRow_inherited hget).1, hl]
        | undefined =>
          simp only []
          rw [filter_key_eq_self (getRow_undefined hget).1, hl]
      obtain ⟨h1, h2⟩ := ih
        { monitor with
          gpuList :=
            match getRow monitor.gpuRows key with
            | .own handle =>
              if handle ∈ monitor.gpuList then monitor.gpuList.erase handle
              else monitor.gpuList
            | _ => monitor.gpuList
          gpuRows := monitor.gpuRows.filter (fun p => p.1 != key) } hk2 hh2 hl2
      refine ⟨?_, h2⟩
      rw [h1]
      simp only [List.filter_filter]
      apply List.filter_congr
      intro p _
      by_cases hpk : p.1 = key
      · have hps : p.1 ∉ seenKeys := hpk ▸ h
        simp [hpk, h]
      · simp [hpk]

/-! ## Reconcile passes on reachable states -/

theorem removeStale_consistent (seenKeys ks : List String) (monitor : Monitor)
    (hc : Consistent monitor) : Consistent (removeStale seenKeys ks monitor) := by
  obtain ⟨h1, h2⟩ := removeStale_filter seenKeys ks monitor hc.keys_nodup hc.handles_nodup
    hc.list_eq
  obtain ⟨-, -, hr⟩ := removeStale_frame seenKeys ks monitor
  refine ⟨?_, ?_, ?_, h2⟩
  · intro p hp
    rw [hr]
    rw [h1] at hp
    exact hc.valid p (List.mem_filter.1 hp).1
  · rw [h1]
    exact hc.keys_nodup.sublist ((List.filter_sublist _).map _)
  · rw [h1]
    exact hc.handles_nodup.sublist ((List.filter_sublist _).map _)

theorem updateMonitorUI_consistent (toUpperCase : String → String) (monitor : Monitor)
    (data : Option Snapshot) (hc : Consistent monitor) :
    Consistent (updateMonitorUI toUpperCase monitor data).1 := by
  cases data with
  | none => exact hc
  | some snapshot =>
    cases hg : snapshot.gpus with
    | missing => simp only [updateMonitorUI, hg]; exact hc
    | notArray => simp only [updateMonitorUI, hg]; exact hc
    | array gpus =>
      by_cases hne : gpus = []
      · subst hne
        simp only [updateMonitorUI, hg, List.length_nil, if_true]
        exact hc
      · rw [updateMonitorUI_array monitor snapshot hg hne]
        have hc0 : Consistent
            { monitor with driverLine := driverLineText toUpperCase snapshot } :=
          ⟨hc.valid, hc.keys_nodup, hc.handles_nodup, hc.list_eq⟩
        have hloop := forEachGpu_consistent gpus 0 _ hc0
        generalize forEachGpu gpus 0
          { monitor with driverLine := driverLineText toUpperCase snapshot } = res at hloop
        obtain ⟨looped, completion⟩ := res
        cases completion with
        | threw => exact hloop
        | returned => exact removeStale_consistent _ _ _ hloop

/-- Every widget state reachable from a freshly created widget is consistent. -/
theorem reachable_consistent {toUpperCase : String → String} {monitor : Monitor}
    (h : Reachable toUpperCase monitor) : Consistent monitor := by
  induction h with
  | fresh jsonParse styleSet storage =>
    refine ⟨?_, ?_, ?_, ?_⟩
    · intro p hp
      simp [createMonitorElement] at hp
    · simp [createMonitorElement]
    · simp [createMonitorElement]
    · simp [createMonitorElement]
  | pass monitor data _ ih => exact updateMonitorUI_consistent _ _ _ ih

/-- A pass over a non-empty array none of whose keys is a name inherited from
`Object.prototype`, on a consistent state: the call returns; the registry is the old
entries whose key occurs in the snapshot, in their old order, followed by one entry
with a newly built row per key seen for the first time, in the order of first
occurrence; the row list holds the rows of the registry in that order. -/
theorem updateMonitorUI_reconciles (toUpperCase : String → String) (monitor : Monitor)
    (snapshot : Snapshot) (gpus : List GpuRecord) (hc : Consistent monitor)
    (hg : snapshot.gpus = .array gpus) (hne : gpus ≠ [])
    (hsafe : ∀ k ∈ seenKeysFrom gpus 0, k ∉ objectPrototypeKeys) :
    (updateMonitorUI toUpperCase monitor (some snapshot)).2 = .returned ∧
    (updateMonitorUI toUpperCase monitor (some snapshot)).1.gpuList
      = (updateMonitorUI toUpperCase monitor (some snapshot)).1.gpuRows.map Prod.snd ∧
    ∃ ext : List (String × Nat),
      (updateMonitorUI toUpperCase monitor (some snapshot)).1.gpuRows
        = monitor.gpuRows.filter (fun p => decide (p.1 ∈ seenKeysFrom gpus 0)) ++ ext ∧
      ext.map Prod.fst = firstSeen (monitor.gpuRows.map Prod.fst) (seenKeysFrom gpus 0) ∧
      ∀ p ∈ ext, monitor.rows.length ≤ p.2 := by
  rw [updateMonitorUI_array monitor snapshot hg hne]
  have hc0 : Consistent
      { monitor with driverLine := driverLineText toUpperCase snapshot } :=
    ⟨hc.valid, hc.keys_nodup, hc.handles_nodup, hc.list_eq⟩
  have hloop := forEachGpu_consistent gpus 0 _ hc0
  obtain ⟨hret, ext, hrows, -, hext, hfresh⟩ := forEachGpu_safe gpus 0
    { monitor with driverLine := driverLineText toUpperCase snapshot } hsafe
  generalize forEachGpu gpus 0
    { monitor with driverLine := driverLineText toUpperCase snapshot } = res
    at hloop hret hrows
  obtain ⟨looped, completion⟩ := res
  simp only at hret hrows
  subst hret
  simp only []
  obtain ⟨h1, h2⟩ := removeStale_filter (seenKeysFrom gpus 0) (objectKeys looped.gpuRows)
    looped hloop.keys_nodup hloop.handles_nodup hloop.list_eq
  refine ⟨trivial, h2, ext, ?_, hext, hfresh⟩
  rw [h1, hrows, List.filter_append]
  congr 1
  · apply List.filter_congr
    intro p hp
    have hin : p.1 ∈ objectKeys (monitor.gpuRows ++ ext) :=
      mem_objectKeys.2 (List.mem_map_of_mem _ (List.mem_append_left _ hp))
    simp [hin]
  · rw [List.filter_eq_self]
    intro p hp
    have hk : p.1 ∈ firstSeen (monitor.gpuRows.map Prod.fst) (seenKeysFrom gpus 0) := by
      rw [← hext]; exact List.mem_map_of_mem _ hp
    simp [(mem_firstSeen.1 hk).1]

/-- From a widget without rows, a pass over records with pairwise distinct keys, none
inherited from `Object.prototype`, registers the keys, and lists the rows, in snapshot
order. -/
theorem updateMonitorUI_fresh_order (toUpperCase : String → String) (monitor : Monitor)
    (snapshot : Snapshot) (gpus : List GpuRecord) (hc : Consistent monitor)
    (hempty : monitor.gpuRows = []) (hg : snapshot.gpus = .array gpus) (hne : gpus ≠ [])
    (hsafe : ∀ k ∈ seenKeysFrom gpus 0, k ∉ objectPrototypeKeys)
    (hnd : (seenKeysFrom gpus 0).Nodup) :
    (updateMonitorUI toUpperCase monitor (some snapshot)).1.gpuRows.map Prod.fst
      = seenKeysFrom gpus 0 ∧
    (updateMonitorUI toUpperCase monitor (some snapshot)).1.gpuList
      = (updateMonitorUI toUpperCase monitor (some snapshot)).1.gpuRows.map Prod.snd := by
  obtain ⟨-, hlist, ext, hrows, hext, -⟩ :=
    updateMonitorUI_reconciles toUpperCase monitor snapshot gpus hc hg hne hsafe
  refine ⟨?_, hlist⟩
  rw [hrows, hempty, List.filter_nil, List.nil_append, hext, hempty, List.map_nil]
  exact firstSeen_of_nodup [] _ hnd (fun k _ => List.not_mem_nil k)

theorem seenKeysFrom_length (gpus : List GpuRecord) (idx : Nat) :
    (seenKeysFrom gpus idx).length = gpus.length := by
  induction gpus generalizing idx with
  | nil => rfl
  | cons gpu rest ih => simp [seenKeysFrom, ih]

/-- The key seen at a position is the identity key of the record at that position. -/
theorem seenKeysFrom_getElem? (gpus : List GpuRecord) (idx i : Nat) :
    (seenKeysFrom gpus idx)[i]? = (gpus[i]?).map (fun gpu => gpuKey gpu (idx + i)) := by
  induction gpus generalizing idx i with
  | nil => simp [seenKeysFrom]
  | cons gpu rest ih =>
    cases i with
    | zero => simp [seenKeysFrom]
    | succ i =>
      simp only [seenKeysFrom, List.getElem?_cons_succ]
      rw [ih]
      congr 2
      funext g
      congr 1
      omega

theorem gpuKey_of_card (gpu : GpuRecord) (idx : Nat) (card : String)
    (h : gpu.card = some card) (hne : card ≠ "") : gpuKey gpu idx = card := by
  simp [gpuKey, strOr, h, hne]

theorem gpuKey_of_index (gpu : GpuRecord) (idx i : Nat)
    (h : gpu.card = none ∨ gpu.card = some "") (hi : gpu.index = some i) :
    gpuKey gpu idx = "gpu" ++ toString i := by
  rcases h with h | h <;> simp [gpuKey, strOr, h, hi]

theorem gpuKey_of_position (gpu : GpuRecord) (idx : Nat)
    (h : gpu.card = none ∨ gpu.card = some "") (hi : gpu.index = none) :
    gpuKey gpu idx = "gpu" ++ toString idx := by
  rcases h with h | h <;> simp [gpuKey, strOr, h, hi]

/-- C1, amended. For every widget state reachable from a freshly created widget by reconcile
passes and every snapshot whose `gpus` is a non-empty array none of whose identity keys
is a property name inherited from `Object.prototype`: the pass returns; afterwards the
keys of the registry are exactly the identity keys of the records, where the key of
the record at a position is `card` if that is a non-empty string, else `gpu` followed
by `index`, else `gpu` followed by the position; the row list holds exactly the rows of
the registry, one row per key; records with pairwise distinct keys give as many rows
and entries as there are records; and every key registered before but absent from the
snapshot has its row detached and its entry deleted. -/
theorem updateMonitorUI_registry_matches_snapshot (toUpperCase : String → String)
    (monitor : Monitor) (snapshot : Snapshot) (gpus : List GpuRecord)
    (hreach : Reachable toUpperCase monitor) (hg : snapshot.gpus = .array gpus)
    (hne : gpus ≠ []) (hsafe : ∀ k ∈ seenKeysFrom gpus 0, k ∉ objectPrototypeKeys) :
    (updateMonitorUI toUpperCase monitor (some snapshot)).2 = .returned ∧
    (∀ k, k ∈ (updateMonitorUI toUpperCase monitor (some snapshot)).1.gpuRows.map Prod.fst
      ↔ k ∈ seenKeysFrom gpus 0) ∧
    (∀ i, (seenKeysFrom gpus 0)[i]? = (gpus[i]?).map (fun gpu => gpuKey gpu i)) ∧
    (∀ (gpu : GpuRecord) (idx : Nat) (card : String),
      gpu.card = some card → card ≠ "" → gpuKey gpu idx = card) ∧
    (∀ (gpu : GpuRecord) (idx i : Nat),
      gpu.card = none ∨ gpu.card = some "" → gpu.index = some i →
        gpuKey gpu idx = "gpu" ++ toString i) ∧
    (∀ (gpu : GpuRecord) (idx : Nat),
      gpu.card = none ∨ gpu.card = some "" → gpu.index = none →
        gpuKey gpu idx = "gpu" ++ toString idx) ∧
    (updateMonitorUI toUpperCase monitor (some snapshot)).1.gpuList
      = (updateMonitorUI toUpperCase monitor (some snapshot)).1.gpuRows.map Prod.snd ∧
    ((updateMonitorUI toUpperCase monitor (some snapshot)).1.gpuRows.map Prod.fst).Nodup ∧
    ((updateMonitorUI toUpperCase monitor (some snapshot)).1.gpuRows.map Prod.snd).Nodup ∧
    ((seenKeysFrom gpus 0).Nodup →
      (updateMonitorUI toUpperCase monitor (some snapshot)).1.gpuList.length = gpus.length ∧
      (updateMonitorUI toUpperCase monitor (some snapshot)).1.gpuRows.length = gpus.length) ∧
    (∀ (k : String) (h : Nat), (k, h) ∈ monitor.gpuRows → k ∉ seenKeysFrom gpus 0 →
      h ∉ (updateMonitorUI toUpperCase monitor (some snapshot)).1.gpuList ∧
      k ∉ (updateMonitorUI toUpperCase monitor (some snapshot)).1.gpuRows.map Prod.fst) := by
  have hc := reachable_consistent hreach
  have hc2 := updateMonitorUI_consistent toUpperCase monitor (some snapshot) hc
  obtain ⟨hret, hlist, ext, hrows, hext, hfresh⟩ :=
    updateMonitorUI_reconciles toUpperCase monitor snapshot gpus hc hg hne hsafe
  have hkeys : ∀ k,
      k ∈ (updateMonitorUI toUpperCase monitor (some snapshot)).1.gpuRows.map Prod.fst
        ↔ k ∈ seenKeysFrom gpus 0 := by
    intro k
    rw [hrows, List.map_append, List.mem_append, hext, mem_firstSeen]
    constructor
    · rintro (h | h)
      · obtain ⟨p, hp, hpk⟩ := List.mem_map.1 h
        have := (List.mem_filter.1 hp).2
        simp only [decide_eq_true_eq] at this
        exact hpk ▸ this
      · exact h.1
    · intro hk
      by_cases hold : k ∈ monitor.gpuRows.map Prod.fst
      · left
        obtain ⟨p, hp, hpk⟩ := List.mem_map.1 hold
        refine List.mem_map.2 ⟨p, List.mem_filter.2 ⟨hp, ?_⟩, hpk⟩
        simp only [decide_eq_true_eq]
        exact hpk ▸ hk
      · exact Or.inr ⟨hk, hold⟩
  refine ⟨hret, hkeys, ?_, gpuKey_of_card, gpuKey_of_index, gpuKey_of_position, hlist,
    hc2.keys_nodup, hc2.handles_nodup, ?_, ?_⟩
  · intro i
    rw [seenKeysFrom_getElem?]
    simp
  · intro hnd
    have hperm : ((updateMonitorUI toUpperCase monitor (some snapshot)).1.gpuRows.map
        Prod.fst).Perm (seenKeysFrom gpus 0) :=
      (List.perm_ext_iff_of_nodup hc2.keys_nodup hnd).2 hkeys
    have hlen := hperm.length_eq
    rw [List.length_map, seenKeysFrom_length] at hlen
    refine ⟨?_, hlen⟩
    rw [hlist, List.length_map, hlen]
  · intro k h hmem hk
    refine ⟨?_, fun hin => hk ((hkeys k).1 hin)⟩
    intro hin
    rw [hlist, hrows, List.map_append, List.mem_append] at hin
    rcases hin with hin | hin
    · obtain ⟨p, hp, hph⟩ := List.mem_map.1 hin
      have hpm := List.mem_filter.1 hp
      have hpe : p = (k, h) := List.inj_on_of_nodup_map hc.handles_nodup hpm.1 hmem hph
      have hseen := hpm.2
      simp only [decide_eq_true_eq] at hseen
      rw [hpe] at hseen
      exact hk hseen
    · obtain ⟨p, hp, hph⟩ := List.mem_map.1 hin
      have h1 := hfresh p hp
      have h2 := hc.valid _ hmem
      rw [hph] at h1
      exact Nat.lt_irrefl _ (Nat.lt_of_lt_of_le h2 h1)

/-- A second pass that drops `card0`, keeps `card1` and adds `gpu2` shows two rows. -/
theorem updateMonitorUI_registry_matches_snapshot_witness :
    (updateMonitorUI id
      (updateMonitorUI id
        (createMonitorElement (fun _ => .error ()) (fun old _ => old)
          { position := none, closed := none })
        (some { device_type := some "amd", driver := none,
                gpus := .array
                  [{ card := some "card0", index := some 0, label := none,
                     gpu_utilization := some 10, vram_used := some 512,
                     vram_total := some 8192, vram_used_percent := some 6,
                     gpu_temperature := some 40 },
                   { card := some "card1", index := some 1, label := none,
                     gpu_utilization := some 90, vram_used := some 4096,
                     vram_total := some 8192, vram_used_percent := some 50,
                     gpu_temperature := some 70 }] })).1
      (some { device_type := some "amd", driver := none,
              gpus := .array
                [{ card := some "card1", index := some 1, label := none,
                   gpu_utilization := some 20, vram_used := some 1024,
                   vram_total := some 8192, vram_used_percent := some 13,
                   gpu_temperature := some 50 },
                 { card := none, index := some 2, label := none,
                   gpu_utilization := some 30, vram_used := some 100,
                   vram_total := some 512, vram_used_percent := some 20,
                   gpu_temperature := some 45 }] })).1.gpuList.length = 2 :=
  ((updateMonitorUI_registry_matches_snapshot id _
      { device_type := some "amd", driver := none,
        gpus := .array
          [{ card := some "card1", index := some 1, label := none,
             gpu_utilization := some 20, vram_used := some 1024,
             vram_total := some 8192, vram_used_percent := some 13,
             gpu_temperature := some 50 },
           { card := none, index := some 2, label := none,
             gpu_utilization := some 30, vram_used := some 100,
             vram_total := some 512, vram_used_percent := some 20,
             gpu_temperature := some 45 }] }
      _ (Reachable.pass _ _ (Reachable.fresh _ _ _)) rfl (by decide)
      (by decide)).2.2.2.2.2.2.2.2.2.1 (by decide)).1

/-- C1 as stated fails: a record whose `card` is the empty string is registered under
`gpu0`, not under its `card`. -/
theorem updateMonitorUI_empty_card_key :
    claimedKey
      { card := some "", index := none, label := none, gpu_utilization := none,
        vram_used := none, vram_total := none, vram_used_percent := none,
        gpu_temperature := none } 0 = "" ∧
    (updateMonitorUI id
      (createMonitorElement (fun _ => .error ()) (fun old _ => old)
        { position := none, closed := none })
      (some { device_type := none, driver := none,
              gpus := .array
                [{ card := some "", index := none, label := none, gpu_utilization := none,
                   vram_used := none, vram_total := none, vram_used_percent := none,
                   gpu_temperature := none }] })).1.gpuRows = [("gpu0", 0)] ∧
    "" ∉ (updateMonitorUI id
      (createMonitorElement (fun _ => .error ()) (fun old _ => old)
        { position := none, closed := none })
      (some { device_type := none, driver := none,
              gpus := .array
                [{ card := some "", index := none, label := none, gpu_utilization := none,
                   vram_used := none, vram_total := none, vram_used_percent := none,
                   gpu_temperature := none }] })).1.gpuRows.map Prod.fst := by
  decide

/-- C4 at the failing input: a record whose key is `constructor` makes the pass throw before
any row is built or removed.  From a fresh widget the row list stays empty; from a
widget showing the row of `card0` that row stays in the list although `card0` does not
occur in the snapshot. -/
theorem updateMonitorUI_inherited_key_throws :
    (updateMonitorUI id
      (createMonitorElement (fun _ => .error ()) (fun old _ => old)
        { position := none, closed := none })
      (some { device_type := none, driver := none,
              gpus := .array
                [{ card := some "constructor", index := some 0, label := none,
                   gpu_utilization := some 10, vram_used := some 512,
                   vram_total := some 8192, vram_used_percent := some 6,
                   gpu_temperature := some 40 }] })).2 = .threw ∧
    (updateMonitorUI id
      (createMonitorElement (fun _ => .error ()) (fun old _ => old)
        { position := none, closed := none })
      (some { device_type := none, driver := none,
              gpus := .array
                [{ card := some "constructor", index := some 0, label := none,
                   gpu_utilization := some 10, vram_used := some 512,
                   vram_total := some 8192, vram_used_percent := some 6,
                   gpu_temperature := some 40 }] })).1.gpuList = [] ∧
    (updateMonitorUI id
      (updateMonitorUI id
        (createMonitorElement (fun _ => .error ()) (fun old _ => old)
          { position := none, closed := none })
        (some { device_type := none, driver := none,
                gpus := .array
                  [{ card := some "card0", index := some 0, label := none,
                     gpu_utilization := some 10, vram_used := some 512,
                     vram_total := some 8192, vram_used_percent := some 6,
                     gpu_temperature := some 40 }] })).1
      (some { device_type := none, driver := none,
              gpus := .array
                [{ card := some "constructor", index := some 0, label := none,
                   gpu_utilization := some 10, vram_used := some 512,
                   vram_total := some 8192, vram_used_percent := some 6,
                   gpu_temperature := some 40 }] })).2 = .threw ∧
    (updateMonitorUI id
      (updateMonitorUI id
        (createMonitorElement (fun _ => .error ()) (fun old _ => old)
          { position := none, closed := none })
        (some { device_type := none, driver := none,
                gpus := .array
                  [{ card := some "card0", index := some 0, label := none,
                     gpu_utilization := some 10, vram_used := some 512,
                     vram_total := some 8192, vram_used_percent := some 6,
                     gpu_temperature := some 40 }] })).1
      (some { device_type := none, driver := none,
              gpus := .array
                [{ card := some "constructor", index := some 0, label := none,
                   gpu_utilization := some 10, vram_used := some 512,
                   vram_total := some 8192, vram_used_percent := some 6,
                   gpu_temperature := some 40 }] })).1.gpuRows = [("card0", 0)] ∧
    (updateMonitorUI id
      (updateMonitorUI id
        (createMonitorElement (fun _ => .error ()) (fun old _ => old)
          { position := none, closed := none })
        (some { device_type := none, driver := none,
                gpus := .array
                  [{ card := some "card0", index := some 0, label := none,
                     gpu_utilization := some 10, vram_used := some 512,
                     vram_total := some 8192, vram_used_percent := some 6,
                     gpu_temperature := some 40 }] })).1
      (some { device_type := none, driver := none,
              gpus := .array
                [{ card := some "constructor", index := some 0, label := none,
                   gpu_utilization := some 10, vram_used := some 512,
                   vram_total := some 8192, vram_used_percent := some 6,
                   gpu_temperature := some 40 }] })).1.gpuList = [0] := by
  decide

end AMDGPUMonitor
